import Mathlib

/-!
Verification development for the lightmap geometry baking pipeline of
`Source/Urho3D/Glow/LightmapGeometryBaker.cpp` (rbfx).

Floating-point values of the source are embedded as exact fractions
(`Frac`): a numerator over a positive denominator, without normalization,
so that every operation of the embedded code reduces inside the kernel.
`Frac.val` interprets a fraction as a rational number; theorem statements
about arithmetic identities are phrased through `val`.
-/

/-- Exact fraction: numerator over a positive denominator.  Embeds the
`float` values of the source as exact rational arithmetic. -/
structure Frac where
  num : Int
  den : Nat
  den_pos : 0 < den

instance : DecidableEq Frac := fun a b =>
  decidable_of_iff (a.num = b.num ∧ a.den = b.den) (by
    cases a; cases b; simp)

instance (n : Nat) : OfNat Frac n := ⟨⟨n, 1, Nat.one_pos⟩⟩

/-- Fraction from an integer numerator and a positive natural denominator
(denominator `0` is replaced by `1`). -/
def fr (n : Int) (d : Nat) : Frac :=
  if h : 0 < d then ⟨n, d, h⟩ else ⟨n, 1, Nat.one_pos⟩

def Frac.add (a b : Frac) : Frac :=
  ⟨a.num * b.den + b.num * a.den, a.den * b.den, Nat.mul_pos a.den_pos b.den_pos⟩

def Frac.neg (a : Frac) : Frac := ⟨-a.num, a.den, a.den_pos⟩

def Frac.sub (a b : Frac) : Frac := a.add b.neg

def Frac.mul (a b : Frac) : Frac :=
  ⟨a.num * b.num, a.den * b.den, Nat.mul_pos a.den_pos b.den_pos⟩

/-- Division; division by a zero fraction yields `0` (never exercised by
the embedded code, which divides only by positive quantities). -/
def Frac.div (a b : Frac) : Frac :=
  if h : 0 < b.num then
    ⟨a.num * b.den, a.den * b.num.toNat,
      Nat.mul_pos a.den_pos (by omega)⟩
  else if h2 : b.num < 0 then
    ⟨-(a.num * b.den), a.den * (-b.num).toNat,
      Nat.mul_pos a.den_pos (by omega)⟩
  else 0

instance : Add Frac := ⟨Frac.add⟩
instance : Sub Frac := ⟨Frac.sub⟩
instance : Mul Frac := ⟨Frac.mul⟩
instance : Neg Frac := ⟨Frac.neg⟩
instance : Div Frac := ⟨Frac.div⟩

/-- Strict order on fractions, by cross multiplication. -/
def Frac.lt (a b : Frac) : Prop := a.num * b.den < b.num * a.den

instance : LT Frac := ⟨Frac.lt⟩

instance (a b : Frac) : Decidable (a < b) :=
  inferInstanceAs (Decidable (a.num * b.den < b.num * a.den))

/-- `Max(lhs, rhs)` of the engine: `lhs > rhs ? lhs : rhs`. -/
def Frac.fmax (lhs rhs : Frac) : Frac := if rhs < lhs then lhs else rhs

/-- `FloorToInt` of the engine on an exact fraction. -/
def Frac.floorInt (a : Frac) : Int := a.num.fdiv a.den

/-- Interpretation of a fraction as a rational number. -/
def Frac.val (a : Frac) : ℚ := (a.num : ℚ) / (a.den : ℚ)

theorem Frac.den_ne_zero_q (a : Frac) : (a.den : ℚ) ≠ 0 := by
  exact_mod_cast Nat.pos_iff_ne_zero.mp a.den_pos

theorem Frac.den_pos_q (a : Frac) : (0 : ℚ) < (a.den : ℚ) := by
  exact_mod_cast a.den_pos

theorem Frac.val_add (a b : Frac) : (a.add b).val = a.val + b.val := by
  unfold Frac.val Frac.add
  have ha := a.den_ne_zero_q
  have hb := b.den_ne_zero_q
  field_simp

theorem Frac.val_neg (a : Frac) : a.neg.val = -a.val := by
  unfold Frac.val Frac.neg
  push_cast
  ring

theorem Frac.val_sub (a b : Frac) : (a.sub b).val = a.val - b.val := by
  unfold Frac.sub
  rw [Frac.val_add, Frac.val_neg]
  ring

theorem Frac.val_mul (a b : Frac) : (a.mul b).val = a.val * b.val := by
  unfold Frac.val Frac.mul
  have ha := a.den_ne_zero_q
  have hb := b.den_ne_zero_q
  field_simp

theorem Frac.val_lt_iff (a b : Frac) : a < b ↔ a.val < b.val := by
  show a.lt b ↔ _
  unfold Frac.lt Frac.val
  rw [div_lt_div_iff₀ a.den_pos_q b.den_pos_q]
  constructor
  · intro h; exact_mod_cast h
  · intro h; exact_mod_cast h

theorem Frac.val_fmax (a b : Frac) : (Frac.fmax a b).val = max a.val b.val := by
  unfold Frac.fmax
  by_cases h : b < a
  · rw [if_pos h]
    rw [Frac.val_lt_iff] at h
    exact (max_eq_left h.le).symm
  · rw [if_neg h]
    rw [Frac.val_lt_iff, not_lt] at h
    exact (max_eq_right h).symm

theorem Frac.val_ofNat (n : Nat) : (OfNat.ofNat n : Frac).val = n := by
  unfold Frac.val
  show ((n : Int) : ℚ) / ((1 : Nat) : ℚ) = _
  simp

theorem Frac.val_div_pos (a b : Frac) (h : 0 < b.num) :
    (a.div b).val = a.val / b.val := by
  unfold Frac.div Frac.val
  rw [dif_pos h]
  have ha := a.den_ne_zero_q
  have hb := b.den_ne_zero_q
  have hbq : (b.num : ℚ) ≠ 0 := by exact_mod_cast h.ne'
  have ht : ((b.num.toNat : ℕ) : ℚ) = (b.num : ℚ) := by
    exact_mod_cast congrArg (fun z : Int => (z : ℚ)) (Int.toNat_of_nonneg h.le)
  push_cast
  rw [ht]
  field_simp

/-- Truncation of a non-negative value to an unsigned integer
(`static_cast<unsigned>` applied to a non-negative float). -/
def Frac.truncUint (a : Frac) : Nat := a.floorInt.toNat

theorem Frac.truncUint_ofNat (n : Nat) : (OfNat.ofNat n : Frac).truncUint = n := by
  unfold Frac.truncUint Frac.floorInt
  show ((n : Int).fdiv 1).toNat = n
  rw [Int.fdiv_one]
  exact Int.toNat_natCast n

namespace Urho3D

/-! ## Vector types of the engine, embedded over `Frac` -/

/-- `Urho3D::Vector2`. -/
structure Vector2 where
  x_ : Frac
  y_ : Frac
deriving DecidableEq

/-- `Urho3D::Vector3`. -/
structure Vector3 where
  x_ : Frac
  y_ : Frac
  z_ : Frac
deriving DecidableEq

/-- `Urho3D::Vector4`. -/
structure Vector4 where
  x_ : Frac
  y_ : Frac
  z_ : Frac
  w_ : Frac
deriving DecidableEq

/-- `Urho3D::IntVector3`. -/
structure IntVector3 where
  x_ : Int
  y_ : Int
  z_ : Int
deriving DecidableEq

def Vector2.sub (a b : Vector2) : Vector2 := ⟨a.x_ - b.x_, a.y_ - b.y_⟩

def Vector2.add (a b : Vector2) : Vector2 := ⟨a.x_ + b.x_, a.y_ + b.y_⟩

/-- Componentwise product (`Vector2::operator*(Vector2)`). -/
def Vector2.mulV (a b : Vector2) : Vector2 := ⟨a.x_ * b.x_, a.y_ * b.y_⟩

/-- `Vector2::LengthSquared`. -/
def Vector2.lengthSq (a : Vector2) : Frac := a.x_ * a.x_ + a.y_ * a.y_

def Vector3.sub (a b : Vector3) : Vector3 := ⟨a.x_ - b.x_, a.y_ - b.y_, a.z_ - b.z_⟩

/-- `Vector3::LengthSquared`. -/
def Vector3.lengthSq (a : Vector3) : Frac := a.x_ * a.x_ + a.y_ * a.y_ + a.z_ * a.z_

/-- `Vector3::CrossProduct`. -/
def Vector3.cross (a b : Vector3) : Vector3 :=
  ⟨a.y_ * b.z_ - a.z_ * b.y_, a.z_ * b.x_ - a.x_ * b.z_, a.x_ * b.y_ - a.y_ * b.x_⟩

/-- Componentwise division (`Vector3::operator/(Vector3)`). -/
def Vector3.divV (a b : Vector3) : Vector3 := ⟨a.x_ / b.x_, a.y_ / b.y_, a.z_ / b.z_⟩

/-- Division by a scalar (`Vector3::operator/(float)`). -/
def Vector3.divS (a : Vector3) (s : Frac) : Vector3 := ⟨a.x_ / s, a.y_ / s, a.z_ / s⟩

/-- `Urho3D::VectorMax`, componentwise. -/
def vectorMax (a b : Vector3) : Vector3 :=
  ⟨Frac.fmax a.x_ b.x_, Frac.fmax a.y_ b.y_, Frac.fmax a.z_ b.z_⟩

/-- `Urho3D::VectorFloorToInt`. -/
def vectorFloorToInt (a : Vector3) : IntVector3 :=
  ⟨a.x_.floorInt, a.y_.floorInt, a.z_.floorInt⟩

def IntVector3.add (a b : IntVector3) : IntVector3 := ⟨a.x_ + b.x_, a.y_ + b.y_, a.z_ + b.z_⟩

def Vector4.add (a b : Vector4) : Vector4 :=
  ⟨a.x_ + b.x_, a.y_ + b.y_, a.z_ + b.z_, a.w_ + b.w_⟩

/-! ## Engine constants and missing-header data -/

/-- Modelled from the spec: `M_LARGE_EPSILON`, the loose shared tolerance used
for position, normal and UV comparisons (engine constant `0.00005`, declared in
a header that is not part of the examined sources). -/
def largeEpsilon : Frac := fr 1 20000

/-- Modelled from the spec: `M_LARGE_VALUE` (engine constant `100000000.0`),
the divisor deriving the spatial-hash cell size from the bounding-box extent. -/
def largeValue : Frac := 100000000

/-- `Urho3D::BoundingBox`, reduced to its two corners. -/
structure BoundingBox where
  min_ : Vector3
  max_ : Vector3
deriving DecidableEq

/-- `Urho3D::Min` of the engine: `lhs < rhs ? lhs : rhs`. -/
def Frac.fmin (lhs rhs : Frac) : Frac := if lhs < rhs then lhs else rhs

/-- Merge one point into a bounding box, componentwise. -/
def BoundingBox.mergePoint (b : BoundingBox) (p : Vector3) : BoundingBox :=
  ⟨⟨Frac.fmin b.min_.x_ p.x_, Frac.fmin b.min_.y_ p.y_, Frac.fmin b.min_.z_ p.z_⟩,
   ⟨Frac.fmax b.max_.x_ p.x_, Frac.fmax b.max_.y_ p.y_, Frac.fmax b.max_.z_ p.z_⟩⟩

/-- `BoundingBox::Size` (`max - min`). -/
def BoundingBox.size (b : BoundingBox) : Vector3 := b.max_.sub b.min_

/-- Modelled from the spec: `ModelView::CalculateBoundingBox` (declared outside
the examined sources) — the componentwise min/max bounding box of all vertex
positions; degenerate zero box for an empty model. -/
def calculateBoundingBox (ps : List Vector3) : BoundingBox :=
  match ps with
  | [] => ⟨⟨0, 0, 0⟩, ⟨0, 0, 0⟩⟩
  | p :: rest => rest.foldl BoundingBox.mergePoint ⟨p, p⟩

/-! ## Mesh data (`ModelView` import form) -/

/-- `Urho3D::ModelVertex`, restricted to the fields the seam detector reads. -/
structure ModelVertex where
  position_ : Vector3
  normal_ : Vector3
  uv_ : List Vector2
deriving DecidableEq

instance : Inhabited ModelVertex := ⟨⟨⟨0, 0, 0⟩, ⟨0, 0, 0⟩, []⟩⟩

/-- `Urho3D::GeometryLODView`: one LOD's vertex and index arrays. -/
structure GeometryLODView where
  vertices_ : List ModelVertex
  indices_ : List Nat
deriving DecidableEq

/-- `Urho3D::GeometryView`. -/
structure GeometryView where
  lods_ : List GeometryLODView
deriving DecidableEq

/-- The imported model (`Urho3D::ModelView`), reduced to its geometry data. -/
structure ModelViewData where
  geometries_ : List GeometryView
deriving DecidableEq

/-- `LightmapSeam` (`positions_[2]` and `otherPositions_[2]` flattened into
four named fields). -/
structure LightmapSeam where
  positions0_ : Vector2
  positions1_ : Vector2
  otherPositions0_ : Vector2
  otherPositions1_ : Vector2
deriving DecidableEq

/-! ## Sort + unique (the `ea::sort` / `ea::unique` idiom on index pairs) -/

/-- Lexicographic order on index pairs (`ea::pair::operator<`). -/
def pairLe (a b : Nat × Nat) : Prop := a.1 < b.1 ∨ (a.1 = b.1 ∧ a.2 ≤ b.2)

instance : DecidableRel pairLe := fun a b => by unfold pairLe; infer_instance

instance : IsTotal (Nat × Nat) pairLe where
  total a b := by
    unfold pairLe
    rcases Nat.lt_trichotomy a.1 b.1 with h | h | h
    · exact Or.inl (Or.inl h)
    · rcases Nat.le_total a.2 b.2 with h2 | h2
      · exact Or.inl (Or.inr ⟨h, h2⟩)
      · exact Or.inr (Or.inr ⟨h.symm, h2⟩)
    · exact Or.inr (Or.inl h)

instance : IsTrans (Nat × Nat) pairLe where
  trans a b c hab hbc := by
    unfold pairLe at *
    rcases hab with h | ⟨h, h2⟩ <;> rcases hbc with g | ⟨g, g2⟩
    · exact Or.inl (h.trans g)
    · exact Or.inl (g ▸ h)
    · exact Or.inl (h ▸ g)
    · exact Or.inr ⟨h.trans g, h2.trans g2⟩

theorem pairLe_antisymm {a b : Nat × Nat} (hab : pairLe a b) (hba : pairLe b a) : a = b := by
  unfold pairLe at *
  rcases hab with h | ⟨h, h2⟩ <;> rcases hba with g | ⟨g, g2⟩ <;>
    [skip; skip; skip; exact Prod.ext h (Nat.le_antisymm h2 g2)] <;> omega

/-- Removal of adjacent duplicates (`ea::unique` + `erase`). -/
def dedupAdj {α : Type} [DecidableEq α] : List α → List α
  | [] => []
  | [a] => [a]
  | a :: b :: rest => if a = b then dedupAdj (b :: rest) else a :: dedupAdj (b :: rest)

theorem mem_dedupAdj {α : Type} [DecidableEq α] (x : α) :
    ∀ (l : List α), x ∈ dedupAdj l ↔ x ∈ l
  | [] => Iff.rfl
  | [a] => Iff.rfl
  | a :: b :: rest => by
    unfold dedupAdj
    by_cases h : a = b
    · rw [if_pos h, mem_dedupAdj x (b :: rest)]
      subst h
      simp
    · rw [if_neg h]
      simp only [List.mem_cons]
      rw [mem_dedupAdj x (b :: rest)]
      simp only [List.mem_cons]

theorem nodup_dedupAdj {α : Type} [DecidableEq α] (r : α → α → Prop)
    (anti : ∀ {a b : α}, r a b → r b a → a = b) :
    ∀ (l : List α), List.Sorted r l → (dedupAdj l).Nodup
  | [], _ => List.nodup_nil
  | [a], _ => List.nodup_singleton a
  | a :: b :: rest, hs => by
    unfold dedupAdj
    have hs' : List.Sorted r (b :: rest) := hs.of_cons
    by_cases h : a = b
    · rw [if_pos h]
      exact nodup_dedupAdj r anti (b :: rest) hs'
    · rw [if_neg h]
      refine List.Nodup.cons ?_ (nodup_dedupAdj r anti (b :: rest) hs')
      intro hmem
      rw [mem_dedupAdj] at hmem
      have hab : r a b := (List.sorted_cons.mp hs).1 b (List.mem_cons_self b rest)
      rcases List.mem_cons.mp hmem with rfl | hmem'
      · exact h rfl
      · have hba : r b a := (List.sorted_cons.mp hs').1 a hmem'
        have hra : r a a := (List.sorted_cons.mp hs).1 a (List.mem_cons.mpr (Or.inr hmem'))
        exact h (anti hab hba)

/-- `ea::sort` followed by `ea::unique`/`erase` on index pairs. -/
def sortUnique (l : List (Nat × Nat)) : List (Nat × Nat) :=
  dedupAdj (List.insertionSort pairLe l)

theorem mem_sortUnique (x : Nat × Nat) (l : List (Nat × Nat)) :
    x ∈ sortUnique l ↔ x ∈ l := by
  unfold sortUnique
  rw [mem_dedupAdj]
  exact (List.perm_insertionSort pairLe l).mem_iff

theorem nodup_sortUnique (l : List (Nat × Nat)) : (sortUnique l).Nodup :=
  nodup_dedupAdj pairLe (fun hab hba => pairLe_antisymm hab hba) _
    (List.sorted_insertionSort pairLe l)

/-! ## The seam detector (`CollectModelSeams`) -/

/-- `MakeOrderedIndexPair`. -/
def makeOrderedIndexPair (firstIndex secondIndex : Nat) : Nat × Nat :=
  if firstIndex < secondIndex then (firstIndex, secondIndex) else (secondIndex, firstIndex)

/-- `vertices[index]` with the out-of-range access mapped to a default vertex. -/
def vertexAt (vertices : List ModelVertex) (i : Nat) : ModelVertex :=
  vertices.getD i default

/-- `uv_[uvChannel]` of a vertex. -/
def vertexUv (vertices : List ModelVertex) (uvChannel : Nat) (i : Nat) : Vector2 :=
  (vertexAt vertices i).uv_.getD uvChannel ⟨0, 0⟩

/-- The `computeHash` lambda: quantize a position by the spatial-hash step. -/
def computeHash (boxMin hashStep position : Vector3) : IntVector3 :=
  vectorFloorToInt ((position.sub boxMin).divV hashStep)

/-- All triangle edges of one LOD, as canonical ordered index pairs. -/
def geometryEdgesRaw (lod : GeometryLODView) : List (Nat × Nat) :=
  (List.range (lod.indices_.length / 3)).flatMap (fun faceIndex =>
    let indexA := lod.indices_.getD (faceIndex * 3 + 0) 0
    let indexB := lod.indices_.getD (faceIndex * 3 + 1) 0
    let indexC := lod.indices_.getD (faceIndex * 3 + 2) 0
    [makeOrderedIndexPair indexA indexB,
     makeOrderedIndexPair indexB indexC,
     makeOrderedIndexPair indexC indexA])

/-- The deduplicated edge list of one LOD. -/
def geometryEdges (lod : GeometryLODView) : List (Nat × Nat) :=
  sortUnique (geometryEdgesRaw lod)

/-- The bucket of the spatial hash at one cell: every edge hashed there by
either endpoint, in edge order (an edge with both endpoints in the cell is
pushed twice, exactly as the source builds `geometryEdgesHash`). -/
def edgeHashBucket (vertices : List ModelVertex) (boxMin hashStep : Vector3)
    (edges : List (Nat × Nat)) (cell : IntVector3) : List (Nat × Nat) :=
  edges.flatMap (fun edge =>
    (if computeHash boxMin hashStep (vertexAt vertices edge.1).position_ = cell
      then [edge] else []) ++
    (if computeHash boxMin hashStep (vertexAt vertices edge.2).position_ = cell
      then [edge] else []))

/-- The 3×3×3 neighborhood offsets, in the loop order of the source. -/
def hashOffsets : List IntVector3 :=
  [(-1 : Int), 0, 1].flatMap (fun x =>
    [(-1 : Int), 0, 1].flatMap (fun y =>
      [(-1 : Int), 0, 1].map (fun z => ⟨x, y, z⟩)))

/-- Candidate edges for one edge: union of the buckets of the 3×3×3
neighborhoods around both endpoints, then deduplicated by sort+unique. -/
def edgeCandidates (vertices : List ModelVertex) (boxMin hashStep : Vector3)
    (edges : List (Nat × Nat)) (edge : Nat × Nat) : List (Nat × Nat) :=
  sortUnique (([edge.1, edge.2]).flatMap (fun index =>
    let hashPosition := computeHash boxMin hashStep (vertexAt vertices index).position_
    hashOffsets.flatMap (fun offset =>
      edgeHashBucket vertices boxMin hashStep edges (hashPosition.add offset))))

/-- `positionEpsilon * positionEpsilon` (`positionEpsilon = M_LARGE_EPSILON`). -/
def positionEpsilonSquared : Frac := largeEpsilon * largeEpsilon

/-- `normalEpsilon * normalEpsilon` (`normalEpsilon = M_LARGE_EPSILON`). -/
def normalEpsilonSquared : Frac := largeEpsilon * largeEpsilon

/-- `uvEpsilon * uvEpsilon` (`uvEpsilon = M_LARGE_EPSILON`). -/
def uvEpsilonSquared : Frac := largeEpsilon * largeEpsilon

/-- `Vector3{Vector2, float}`. -/
def vec3OfVec2 (v : Vector2) (z : Frac) : Vector3 := ⟨v.x_, v.y_, z⟩

/-- The candidate-orientation step: swap the candidate's endpoints when its
first endpoint lies within the position epsilon of the edge's second. -/
def orientCandidate (vertices : List ModelVertex) (edge candidate : Nat × Nat) :
    Nat × Nat :=
  if ((vertexAt vertices candidate.1).position_.sub
        (vertexAt vertices edge.2).position_).lengthSq < positionEpsilonSquared
  then (candidate.2, candidate.1) else candidate

/-- The body of the candidate loop of `CollectModelSeams`: `none` on every
`continue`, `some seam` when the candidate is accepted. -/
def checkSeamCandidate (vertices : List ModelVertex) (uvChannel : Nat)
    (edge candidate0 : Nat × Nat) : Option LightmapSeam :=
  if candidate0 = edge then none
  else
    let edgePos0 := (vertexAt vertices edge.1).position_
    let edgePos1 := (vertexAt vertices edge.2).position_
    let edgeNormal0 := (vertexAt vertices edge.1).normal_
    let edgeNormal1 := (vertexAt vertices edge.2).normal_
    let edgeUv0 := vertexUv vertices uvChannel edge.1
    let edgeUv1 := vertexUv vertices uvChannel edge.2
    let candidate := orientCandidate vertices edge candidate0
    let candidatePos0 := (vertexAt vertices candidate.1).position_
    let candidatePos1 := (vertexAt vertices candidate.2).position_
    let candidateNormal0 := (vertexAt vertices candidate.1).normal_
    let candidateNormal1 := (vertexAt vertices candidate.2).normal_
    let candidateUv0 := vertexUv vertices uvChannel candidate.1
    let candidateUv1 := vertexUv vertices uvChannel candidate.2
    if (edgePos0.sub candidatePos0).lengthSq < positionEpsilonSquared ∧
        (edgePos1.sub candidatePos1).lengthSq < positionEpsilonSquared ∧
        (edgeNormal0.sub candidateNormal0).lengthSq < normalEpsilonSquared ∧
        (edgeNormal1.sub candidateNormal1).lengthSq < normalEpsilonSquared then
      if (edgeUv0.sub candidateUv0).lengthSq < uvEpsilonSquared ∧
          (edgeUv1.sub candidateUv1).lengthSq < uvEpsilonSquared then none
      else
        let edgeUvDelta := vec3OfVec2 (edgeUv1.sub edgeUv0) 0
        let delta00 := vec3OfVec2 (candidateUv0.sub edgeUv0) 0
        let delta01 := vec3OfVec2 (candidateUv1.sub edgeUv0) 0
        if (edgeUvDelta.cross delta00).lengthSq < uvEpsilonSquared ∧
            (edgeUvDelta.cross delta01).lengthSq < uvEpsilonSquared then none
        else some ⟨edgeUv0, edgeUv1, candidateUv0, candidateUv1⟩
    else none

/-- The per-LOD seam scan of `CollectModelSeams`. -/
def collectLodSeams (boxMin hashStep : Vector3) (uvChannel : Nat)
    (lod : GeometryLODView) : List LightmapSeam :=
  let vertices := lod.vertices_
  let edges := geometryEdges lod
  edges.flatMap (fun edge =>
    (edgeCandidates vertices boxMin hashStep edges edge).flatMap (fun candidate =>
      (checkSeamCandidate vertices uvChannel edge candidate).toList))

/-- All vertex positions of a model, for the model-level bounding box. -/
def modelPositions (mv : ModelViewData) : List Vector3 :=
  mv.geometries_.flatMap (fun g => g.lods_.flatMap (fun lod =>
    lod.vertices_.map (fun v => v.position_)))

/-- The spatial-hash step of a model
(`VectorMax(boundingBox.Size() / M_LARGE_VALUE, Vector3::ONE * positionEpsilon)`). -/
def modelHashStep (boundingBox : BoundingBox) : Vector3 :=
  vectorMax (boundingBox.size.divS largeValue) ⟨largeEpsilon, largeEpsilon, largeEpsilon⟩

/-- `CollectModelSeams` on a successfully imported model. -/
def collectModelSeams (mv : ModelViewData) (uvChannel : Nat) : List LightmapSeam :=
  let boundingBox := calculateBoundingBox (modelPositions mv)
  let hashStep := modelHashStep boundingBox
  mv.geometries_.flatMap (fun geometry =>
    geometry.lods_.flatMap (fun lod =>
      collectLodSeams boundingBox.min_ hashStep uvChannel lod))

/-! ## Charts and the scene assembler (`GenerateLightmapGeometryBakingScene`) -/

/-- `Urho3D::IntVector2`. -/
structure IntVector2 where
  x_ : Int
  y_ : Int
deriving DecidableEq

/-- The world transform of a chart element's scene node
(`GetWorldPosition` / `GetWorldRotation` / `GetWorldScale`; the rotation
quaternion is carried as four components and never operated on). -/
structure NodeTransform where
  position_ : Vector3
  rotation_ : Vector4
  scale_ : Vector3
deriving DecidableEq

/-- Modelled from the spec: the chart-region type of the header (not in the
examined sources) — a UV scale and offset within the chart, with
`GetScaleOffset` packing them as `(scale.x, scale.y, offset.x, offset.y)`
(the tap offset is later added to the `z`/`w` components). -/
structure LightmapChartRegion where
  scale_ : Vector2
  offset_ : Vector2
deriving DecidableEq

def LightmapChartRegion.getScale (r : LightmapChartRegion) : Vector2 := r.scale_

def LightmapChartRegion.getOffset (r : LightmapChartRegion) : Vector2 := r.offset_

def LightmapChartRegion.getScaleOffset (r : LightmapChartRegion) : Vector4 :=
  ⟨r.scale_.x_, r.scale_.y_, r.offset_.x_, r.offset_.y_⟩

/-- `LightmapChartElement`: one placed mesh instance.  `staticModel_` is the
optional static-model component, reduced to the identity of its `Model*`
(`none` embeds a null `staticModel_` pointer). -/
structure LightmapChartElement where
  node_ : NodeTransform
  staticModel_ : Option Nat
  region_ : LightmapChartRegion
deriving DecidableEq

/-- `LightmapChart`. -/
structure LightmapChart where
  index_ : Nat
  width_ : Nat
  height_ : Nat
  size_ : IntVector2
  elements_ : List LightmapChartElement
deriving DecidableEq

/-- Modelled from the spec: `LightmapChart::GetTexelSize` (header not in the
examined sources) — one texel in the chart's UV space, `(1/width, 1/height)`. -/
def LightmapChart.getTexelSize (chart : LightmapChart) : Vector2 :=
  ⟨(1 : Frac) / fr chart.width_ 1, (1 : Frac) / fr chart.height_ 1⟩

/-- `LightmapGeometryBakingSettings`. -/
structure LightmapGeometryBakingSettings where
  materialName_ : String
  uvChannel_ : Nat
  renderPathName_ : String
deriving DecidableEq

/-- Modelled from the spec: `LightmapSeam::Transformed(scale, offset)`
(header not in the examined sources) — each UV endpoint mapped to
`p * scale + offset`, componentwise. -/
def LightmapSeam.transformed (seam : LightmapSeam) (scale offset : Vector2) :
    LightmapSeam :=
  ⟨(seam.positions0_.mulV scale).add offset,
   (seam.positions1_.mulV scale).add offset,
   (seam.otherPositions0_.mulV scale).add offset,
   (seam.otherPositions1_.mulV scale).add offset⟩

/-- `numMultiTapSamples`. -/
def numMultiTapSamples : Nat := 25

/-- `multiTapOffsets`, in table order. -/
def multiTapOffsets : List Vector2 :=
  [⟨1, 1⟩, ⟨1, -1⟩, ⟨-1, 1⟩, ⟨-1, -1⟩,
   ⟨1, fr 1 2⟩, ⟨1, -fr 1 2⟩, ⟨-1, fr 1 2⟩, ⟨-1, -fr 1 2⟩,
   ⟨fr 1 2, 1⟩, ⟨fr 1 2, -1⟩, ⟨-fr 1 2, 1⟩, ⟨-fr 1 2, -1⟩,
   ⟨1, 0⟩, ⟨-1, 0⟩, ⟨0, 1⟩, ⟨0, -1⟩,
   ⟨fr 1 2, fr 1 2⟩, ⟨fr 1 2, -fr 1 2⟩, ⟨-fr 1 2, fr 1 2⟩, ⟨-fr 1 2, -fr 1 2⟩,
   ⟨fr 1 2, 0⟩, ⟨-fr 1 2, 0⟩, ⟨0, fr 1 2⟩, ⟨0, -fr 1 2⟩,
   ⟨0, 0⟩]

/-- The three shader parameters set on one clone of the baking material. -/
structure MaterialClone where
  baseName_ : String
  lmOffset_ : Vector4
  lightmapLayer_ : Frac
  lightmapGeometry_ : Frac
deriving DecidableEq

/-- One replicated scene node: the element's world transform, its model and
its own material clone. -/
structure BakingSceneNode where
  position_ : Vector3
  rotation_ : Vector4
  scale_ : Vector3
  model_ : Nat
  material_ : MaterialClone
deriving DecidableEq

/-- `tapOffset4`: the tap's texel offset, packed into the `z`/`w` components. -/
def tapOffset4 (chart : LightmapChart) (tap : Nat) : Vector4 :=
  let tapOffset := (multiTapOffsets.getD tap ⟨0, 0⟩).mulV chart.getTexelSize
  ⟨0, 0, tapOffset.x_, tapOffset.y_⟩

/-- `tapDepth`: `1.0f - float(tap) / (numMultiTapSamples - 1)`. -/
def tapDepth (tap : Nat) : Frac :=
  (1 : Frac) - fr tap 1 / fr (numMultiTapSamples - 1) 1

/-- One tap instance of one chart element. -/
def mkTapNode (settings : LightmapGeometryBakingSettings) (chart : LightmapChart)
    (element : LightmapChartElement) (model geometryId tap : Nat) : BakingSceneNode :=
  { position_ := element.node_.position_
    rotation_ := element.node_.rotation_
    scale_ := element.node_.scale_
    model_ := model
    material_ :=
      { baseName_ := settings.materialName_
        lmOffset_ := element.region_.getScaleOffset.add (tapOffset4 chart tap)
        lightmapLayer_ := tapDepth tap
        lightmapGeometry_ := fr geometryId 1 } }

/-- The distinct models referenced by a chart (`usedModels`, a hash set:
one entry per distinct `Model*`). -/
def usedModels (chart : LightmapChart) : List Nat :=
  (chart.elements_.filterMap (fun e => e.staticModel_)).dedup

/-- The per-scene seam cache (`modelSeamsCache`): one `CollectModelSeams`
invocation per distinct model of this chart. -/
def modelSeamsCache (modelData : Nat → ModelViewData) (uvChannel : Nat)
    (chart : LightmapChart) : List (Nat × List LightmapSeam) :=
  (usedModels chart).map (fun model => (model, collectModelSeams (modelData model) uvChannel))

/-- The element-replication loop of `GenerateLightmapGeometryBakingScene`:
walks the chart elements threading the geometry-id counter, accumulating
transformed seams and the 25 tap instances of every element with a model. -/
def replicateChartElements (seamsOfModel : Nat → List LightmapSeam)
    (settings : LightmapGeometryBakingSettings) (chart : LightmapChart) :
    List LightmapChartElement → Nat → List LightmapSeam × List BakingSceneNode
  | [], _ => ([], [])
  | element :: rest, geometryId =>
    match element.staticModel_ with
    | none => replicateChartElements seamsOfModel settings chart rest geometryId
    | some model =>
      let scale := element.region_.getScale
      let offset := element.region_.getOffset
      let modelSeams := seamsOfModel model
      let newSeams := modelSeams.map (fun seam => seam.transformed scale offset)
      let nodes := (List.range numMultiTapSamples).map (fun tap =>
        mkTapNode settings chart element model geometryId tap)
      let restResult := replicateChartElements seamsOfModel settings chart rest (geometryId + 1)
      (newSeams ++ restResult.1, nodes ++ restResult.2)

/-- The produced baking scene (camera and engine handles omitted). -/
structure LightmapGeometryBakingScene where
  index_ : Nat
  width_ : Nat
  height_ : Nat
  size_ : IntVector2
  sceneNodes_ : List BakingSceneNode
  seams_ : List LightmapSeam
deriving DecidableEq

/-- `GenerateLightmapGeometryBakingScene`. -/
def generateLightmapGeometryBakingScene (modelData : Nat → ModelViewData)
    (chart : LightmapChart) (settings : LightmapGeometryBakingSettings) :
    LightmapGeometryBakingScene :=
  let cache := modelSeamsCache modelData settings.uvChannel_ chart
  let result := replicateChartElements (fun model => (cache.lookup model).getD [])
    settings chart chart.elements_ 1
  { index_ := chart.index_, width_ := chart.width_, height_ := chart.height_,
    size_ := chart.size_, sceneNodes_ := result.2, seams_ := result.1 }

/-- The errors logged by the embedded pipeline. -/
inductive LogEntry where
  | renderPathLoadFailed (renderPathName : String)
  | beginFrameFailed
deriving DecidableEq

/-- `GenerateLightmapGeometryBakingScenes`.  `renderPathLoaded` abstracts
whether `LoadRenderPath` succeeds for a given render-path name. -/
def generateLightmapGeometryBakingScenes (modelData : Nat → ModelViewData)
    (renderPathLoaded : String → Bool) (charts : List LightmapChart)
    (settings : LightmapGeometryBakingSettings) :
    List LightmapGeometryBakingScene × List LogEntry :=
  if renderPathLoaded settings.renderPathName_ then
    (charts.map (fun chart => generateLightmapGeometryBakingScene modelData chart settings), [])
  else
    ([], [LogEntry.renderPathLoadFailed settings.renderPathName_])

/-! ## The geometry-buffer baker (`BakeLightmapGeometryBuffer`) -/

/-- A render-target texture as seen by the readback: either a 2-D texture
(what `dynamic_cast<Texture2D*>` accepts) or some other texture type. -/
inductive Texture where
  | tex2D (width height : Nat) (data : List Vector4)
  | texOther
deriving DecidableEq

/-- `ReadTextureRGBA32Float`.  The argument is the raw pointer returned by
`View::GetExtraRenderTarget` (`none` embeds a null pointer); the source
dereferences both the pointer and the result of the `dynamic_cast` without a
check, so a missing or non-2-D texture has no defined result (`none`). -/
def readTextureRGBA32Float : Option Texture → Option (List Vector4)
  | none => none
  | some Texture.texOther => none
  | some (Texture.tex2D width height data) =>
    some ((List.range (width * height)).map (fun i => data.getD i ⟨0, 0, 0, 0⟩))

/-- `ExtractVector3FromVector4`. -/
def extractVector3FromVector4 (data : Vector4) : Vector3 := ⟨data.x_, data.y_, data.z_⟩

/-- `ExtractUintFromVector4` (`static_cast<unsigned>(data.w_)`). -/
def extractUintFromVector4 (data : Vector4) : Nat := data.w_.truncUint

/-- `LightmapChartGeometryBuffer`. -/
structure LightmapChartGeometryBuffer where
  index_ : Nat
  width_ : Nat
  height_ : Nat
  geometryPositions_ : List Vector3
  smoothPositions_ : List Vector3
  faceNormals_ : List Vector3
  smoothNormals_ : List Vector3
  geometryIds_ : List Nat
deriving DecidableEq

/-- Modelled from the spec: the `LightmapChartGeometryBuffer` constructor
(header not in the examined sources) — every per-texel array sized
`width * height`, zero-initialized; the default-constructed buffer is the
`0 × 0` case with empty arrays. -/
def mkGeometryBuffer (index width height : Nat) : LightmapChartGeometryBuffer :=
  { index_ := index, width_ := width, height_ := height
    geometryPositions_ := List.replicate (width * height) ⟨0, 0, 0⟩
    smoothPositions_ := List.replicate (width * height) ⟨0, 0, 0⟩
    faceNormals_ := List.replicate (width * height) ⟨0, 0, 0⟩
    smoothNormals_ := List.replicate (width * height) ⟨0, 0, 0⟩
    geometryIds_ := List.replicate (width * height) 0 }

/-- `ea::transform(src.begin(), src.end(), dest.begin(), f)`: overwrite the
prefix of `dest` with the image of `src`, in place. -/
def transformInto {α β : Type} (src : List α) (f : α → β) (dest : List β) : List β :=
  dest.mapIdx (fun i d => match src.get? i with | some a => f a | none => d)

/-- `BakeLightmapGeometryBuffer`.  `beginFrameOk` abstracts
`Graphics::BeginFrame`; `outputs` abstracts `View::GetExtraRenderTarget`
after the scene has been rendered.  The first component is `none` exactly
when the unchecked readback dereferences a null pointer. -/
def bakeLightmapGeometryBuffer (beginFrameOk : Bool)
    (outputs : String → Option Texture) (bakingScene : LightmapGeometryBakingScene) :
    Option LightmapChartGeometryBuffer × List LogEntry :=
  if beginFrameOk then
    let geometryBuffer :=
      mkGeometryBuffer bakingScene.index_ bakingScene.width_ bakingScene.height_
    match readTextureRGBA32Float (outputs "position"),
        readTextureRGBA32Float (outputs "smoothposition"),
        readTextureRGBA32Float (outputs "facenormal"),
        readTextureRGBA32Float (outputs "smoothnormal") with
    | some positionData, some smoothPositionData, some faceNormalData, some smoothNormalData =>
      (some { geometryBuffer with
          geometryPositions_ :=
            transformInto positionData extractVector3FromVector4 geometryBuffer.geometryPositions_
          geometryIds_ :=
            transformInto positionData extractUintFromVector4 geometryBuffer.geometryIds_
          smoothPositions_ :=
            transformInto smoothPositionData extractVector3FromVector4 geometryBuffer.smoothPositions_
          faceNormals_ :=
            transformInto faceNormalData extractVector3FromVector4 geometryBuffer.faceNormals_
          smoothNormals_ :=
            transformInto smoothNormalData extractVector3FromVector4 geometryBuffer.smoothNormals_ },
        [])
    | _, _, _, _ => (none, [])
  else
    (some (mkGeometryBuffer 0 0 0), [LogEntry.beginFrameFailed])

/-- `BakeLightmapGeometryBuffers`: one buffer per scene, in order; the
`BeginFrame` outcome and the rendered outputs may differ per scene. -/
def bakeLightmapGeometryBuffers (beginFrameOk : Nat → Bool)
    (outputs : Nat → String → Option Texture)
    (bakingScenes : List LightmapGeometryBakingScene) :
    List (Option LightmapChartGeometryBuffer × List LogEntry) :=
  bakingScenes.enum.map (fun p => bakeLightmapGeometryBuffer (beginFrameOk p.1) (outputs p.1) p.2)

/-! ## General lemmas about the embedded operations -/

theorem length_transformInto {α β : Type} (src : List α) (f : α → β) (dest : List β) :
    (transformInto src f dest).length = dest.length := by
  unfold transformInto
  exact List.length_mapIdx

theorem transformInto_of_length_eq {α β : Type} (src : List α) (f : α → β) (dest : List β)
    (h : src.length = dest.length) : transformInto src f dest = src.map f := by
  apply List.ext_getElem?
  intro n
  unfold transformInto
  rw [List.getElem?_map]
  rcases Nat.lt_or_ge n dest.length with hn | hn
  · have hs : n < src.length := h ▸ hn
    rw [List.mapIdx_eq_enum_map, List.getElem?_map, List.getElem?_enum,
      List.getElem?_eq_getElem hn, List.getElem?_eq_getElem hs]
    simp [List.get?_eq_getElem?, List.getElem?_eq_getElem hs]
  · have hs : n ≥ src.length := h ▸ hn
    rw [List.mapIdx_eq_enum_map, List.getElem?_map, List.getElem?_enum,
      List.getElem?_eq_none hn, List.getElem?_eq_none hs]
    simp

theorem lookup_map_self {β : Type} (g : Nat → β) (l : List Nat) (x : Nat) (hx : x ∈ l) :
    (l.map (fun m => (m, g m))).lookup x = some (g x) := by
  induction l with
  | nil => cases hx
  | cons a rest ih =>
    rw [List.map_cons, List.lookup_cons]
    by_cases hax : x = a
    · subst hax
      simp
    · have : (x == a) = false := beq_false_of_ne hax
      rw [this]
      exact ih (by
        rcases List.mem_cons.mp hx with h | h
        · exact absurd h hax
        · exact h)

/-! ## Claim theorems -/

/-- C5: if the render path named in the settings fails to load,
`GenerateLightmapGeometryBakingScenes` returns an empty scene list for every
input chart list, logs exactly one error referencing that render-path name,
and attempts no per-chart scene generation. -/
theorem c5_render_path_failure (modelData : Nat → ModelViewData)
    (renderPathLoaded : String → Bool) (charts : List LightmapChart)
    (settings : LightmapGeometryBakingSettings)
    (hfail : renderPathLoaded settings.renderPathName_ = false) :
    generateLightmapGeometryBakingScenes modelData renderPathLoaded charts settings =
      ([], [LogEntry.renderPathLoadFailed settings.renderPathName_]) := by
  unfold generateLightmapGeometryBakingScenes
  rw [hfail]
  simp

/-- Witness for C5 at a concrete failing loader and a nonempty chart list. -/
theorem c5_render_path_failure_witness :
    (fun _ : String => false) "BakePath.xml" = false ∧
    generateLightmapGeometryBakingScenes (fun _ => ⟨[]⟩) (fun _ => false)
        [⟨0, 4, 4, ⟨4, 4⟩, []⟩] ⟨"BakeMaterial.xml", 0, "BakePath.xml"⟩ =
      ([], [LogEntry.renderPathLoadFailed "BakePath.xml"]) :=
  ⟨rfl, c5_render_path_failure _ _ _ _ rfl⟩

/-- C6: a failed `BeginFrame` for one baking scene yields the default/empty
geometry buffer and a logged failure for that scene only, while
`BakeLightmapGeometryBuffers` still produces one buffer per scene, in order,
each subsequent scene being processed normally. -/
theorem c6_begin_frame_failure (beginFrameOk : Nat → Bool)
    (outputs : Nat → String → Option Texture)
    (bakingScenes : List LightmapGeometryBakingScene) (i : Nat)
    (hi : i < bakingScenes.length) (hfail : beginFrameOk i = false) :
    (bakeLightmapGeometryBuffers beginFrameOk outputs bakingScenes).length =
      bakingScenes.length ∧
    (bakeLightmapGeometryBuffers beginFrameOk outputs bakingScenes)[i]? =
      some (some (mkGeometryBuffer 0 0 0), [LogEntry.beginFrameFailed]) ∧
    ∀ j (hj : j < bakingScenes.length),
      (bakeLightmapGeometryBuffers beginFrameOk outputs bakingScenes)[j]? =
        some (bakeLightmapGeometryBuffer (beginFrameOk j) (outputs j)
          (bakingScenes.get ⟨j, hj⟩)) := by
  have hidx : ∀ j (hj : j < bakingScenes.length),
      (bakeLightmapGeometryBuffers beginFrameOk outputs bakingScenes)[j]? =
        some (bakeLightmapGeometryBuffer (beginFrameOk j) (outputs j)
          (bakingScenes.get ⟨j, hj⟩)) := by
    intro j hj
    unfold bakeLightmapGeometryBuffers
    rw [List.getElem?_map, List.getElem?_enum, List.getElem?_eq_getElem hj]
    rfl
  refine ⟨?_, ?_, hidx⟩
  · unfold bakeLightmapGeometryBuffers
    rw [List.length_map, List.enum_length]
  · rw [hidx i hi]
    unfold bakeLightmapGeometryBuffer
    rw [hfail]
    rfl

/-- Witness for C6: two scenes, `BeginFrame` failing for the first one. -/
theorem c6_begin_frame_failure_witness :
    (0 : Nat) < ([⟨0, 1, 1, ⟨1, 1⟩, [], []⟩, ⟨1, 1, 1, ⟨1, 1⟩, [], []⟩] :
      List LightmapGeometryBakingScene).length ∧
    (fun i : Nat => decide (i ≠ 0)) 0 = false ∧
    ((bakeLightmapGeometryBuffers (fun i => decide (i ≠ 0)) (fun _ _ => none)
        [⟨0, 1, 1, ⟨1, 1⟩, [], []⟩, ⟨1, 1, 1, ⟨1, 1⟩, [], []⟩]).length = 2 ∧
      (bakeLightmapGeometryBuffers (fun i => decide (i ≠ 0)) (fun _ _ => none)
        [⟨0, 1, 1, ⟨1, 1⟩, [], []⟩, ⟨1, 1, 1, ⟨1, 1⟩, [], []⟩])[0]? =
        some (some (mkGeometryBuffer 0 0 0), [LogEntry.beginFrameFailed]) ∧
      ∀ j (hj : j < ([⟨0, 1, 1, ⟨1, 1⟩, [], []⟩, ⟨1, 1, 1, ⟨1, 1⟩, [], []⟩] :
          List LightmapGeometryBakingScene).length),
        (bakeLightmapGeometryBuffers (fun i => decide (i ≠ 0)) (fun _ _ => none)
          [⟨0, 1, 1, ⟨1, 1⟩, [], []⟩, ⟨1, 1, 1, ⟨1, 1⟩, [], []⟩])[j]? =
          some (bakeLightmapGeometryBuffer ((fun i : Nat => decide (i ≠ 0)) j)
            ((fun _ _ => none) j)
            (([⟨0, 1, 1, ⟨1, 1⟩, [], []⟩, ⟨1, 1, 1, ⟨1, 1⟩, [], []⟩] :
              List LightmapGeometryBakingScene).get ⟨j, hj⟩))) :=
  ⟨by decide, rfl, c6_begin_frame_failure _ _ _ 0 (by decide) rfl⟩

theorem bake_buffer_shape (ok : Bool) (outputs : String → Option Texture)
    (scene : LightmapGeometryBakingScene) (buffer : LightmapChartGeometryBuffer)
    (h : (bakeLightmapGeometryBuffer ok outputs scene).1 = some buffer) :
    buffer.geometryPositions_.length = buffer.width_ * buffer.height_ ∧
    buffer.smoothPositions_.length = buffer.width_ * buffer.height_ ∧
    buffer.faceNormals_.length = buffer.width_ * buffer.height_ ∧
    buffer.smoothNormals_.length = buffer.width_ * buffer.height_ ∧
    buffer.geometryIds_.length = buffer.width_ * buffer.height_ := by
  unfold bakeLightmapGeometryBuffer at h
  cases ok with
  | false =>
    simp only [Bool.false_eq_true, if_false] at h
    rw [← Option.some.inj h]
    simp [mkGeometryBuffer]
  | true =>
    simp only [if_true] at h
    rcases h1 : readTextureRGBA32Float (outputs "position") with _ | positionData <;>
      rcases h2 : readTextureRGBA32Float (outputs "smoothposition") with _ | smoothPositionData <;>
      rcases h3 : readTextureRGBA32Float (outputs "facenormal") with _ | faceNormalData <;>
      rcases h4 : readTextureRGBA32Float (outputs "smoothnormal") with _ | smoothNormalData <;>
      rw [h1, h2, h3, h4] at h <;> dsimp only at h
    all_goals try exact Option.noConfusion h
    rw [← Option.some.inj h]
    simp [mkGeometryBuffer, length_transformInto]

/-- C9: with a successfully loaded render path, the pipeline produces one
scene per chart in chart order, one geometry buffer per scene in order, and
every produced buffer's five per-texel arrays have length `width * height`. -/
theorem c9_one_buffer_per_chart (modelData : Nat → ModelViewData)
    (renderPathLoaded : String → Bool) (charts : List LightmapChart)
    (settings : LightmapGeometryBakingSettings) (beginFrameOk : Nat → Bool)
    (outputs : Nat → String → Option Texture)
    (hok : renderPathLoaded settings.renderPathName_ = true) :
    (generateLightmapGeometryBakingScenes modelData renderPathLoaded charts settings).1.length =
      charts.length ∧
    (bakeLightmapGeometryBuffers beginFrameOk outputs
      (generateLightmapGeometryBakingScenes modelData renderPathLoaded charts settings).1).length =
      charts.length ∧
    (∀ j (hj : j < charts.length),
      (generateLightmapGeometryBakingScenes modelData renderPathLoaded charts settings).1[j]? =
        some (generateLightmapGeometryBakingScene modelData (charts.get ⟨j, hj⟩) settings)) ∧
    ∀ result ∈ bakeLightmapGeometryBuffers beginFrameOk outputs
        (generateLightmapGeometryBakingScenes modelData renderPathLoaded charts settings).1,
      ∀ buffer, result.1 = some buffer →
        buffer.geometryPositions_.length = buffer.width_ * buffer.height_ ∧
        buffer.smoothPositions_.length = buffer.width_ * buffer.height_ ∧
        buffer.faceNormals_.length = buffer.width_ * buffer.height_ ∧
        buffer.smoothNormals_.length = buffer.width_ * buffer.height_ ∧
        buffer.geometryIds_.length = buffer.width_ * buffer.height_ := by
  have hscenes : (generateLightmapGeometryBakingScenes modelData renderPathLoaded charts settings).1 =
      charts.map (fun chart => generateLightmapGeometryBakingScene modelData chart settings) := by
    unfold generateLightmapGeometryBakingScenes
    rw [hok]
    rfl
  refine ⟨?_, ?_, ?_, ?_⟩
  · rw [hscenes, List.length_map]
  · unfold bakeLightmapGeometryBuffers
    rw [List.length_map, List.enum_length, hscenes, List.length_map]
  · intro j hj
    rw [hscenes, List.getElem?_map, List.getElem?_eq_getElem hj]
    rfl
  · intro result hresult buffer hbuffer
    unfold bakeLightmapGeometryBuffers at hresult
    rcases List.mem_map.mp hresult with ⟨p, _, hp⟩
    rw [← hp] at hbuffer
    exact bake_buffer_shape _ _ _ _ hbuffer

theorem read_texture_isSome_iff (t : Option Texture) :
    (readTextureRGBA32Float t).isSome ↔
      ∃ w h data, t = some (Texture.tex2D w h data) := by
  match t with
  | none => simp [readTextureRGBA32Float]
  | some Texture.texOther => simp [readTextureRGBA32Float]
  | some (Texture.tex2D w h d) =>
    simp only [readTextureRGBA32Float, Option.isSome_some, true_iff]
    exact ⟨w, h, d, rfl⟩

/-- C10: `ReadTextureRGBA32Float` dereferences the looked-up texture and the
result of the `Texture2D` cast without a check, so its readback is defined
exactly when the texture exists and is 2-D; under the precondition that all
four named render outputs are existing 2-D textures, the readback branch of
`BakeLightmapGeometryBuffer` is total and logs no error. -/
theorem c10_readback_totality (outputs : String → Option Texture)
    (scene : LightmapGeometryBakingScene)
    (hpre : ∀ name ∈ (["position", "smoothposition", "facenormal",
        "smoothnormal"] : List String),
      ∃ w h data, outputs name = some (Texture.tex2D w h data)) :
    (∀ t : Option Texture, (readTextureRGBA32Float t).isSome ↔
      ∃ w h data, t = some (Texture.tex2D w h data)) ∧
    (bakeLightmapGeometryBuffer true outputs scene).1.isSome ∧
    (bakeLightmapGeometryBuffer true outputs scene).2 = [] := by
  refine ⟨read_texture_isSome_iff, ?_⟩
  obtain ⟨w1, h1, d1, e1⟩ := hpre "position" (by simp)
  obtain ⟨w2, h2, d2, e2⟩ := hpre "smoothposition" (by simp)
  obtain ⟨w3, h3, d3, e3⟩ := hpre "facenormal" (by simp)
  obtain ⟨w4, h4, d4, e4⟩ := hpre "smoothnormal" (by simp)
  unfold bakeLightmapGeometryBuffer
  rw [e1, e2, e3, e4]
  simp [readTextureRGBA32Float]

/-- Witness for C10 at a concrete output map and scene. -/
theorem c10_readback_totality_witness :
    (∀ t : Option Texture, (readTextureRGBA32Float t).isSome ↔
      ∃ w h data, t = some (Texture.tex2D w h data)) ∧
    (bakeLightmapGeometryBuffer true (fun _ => some (Texture.tex2D 1 1 [⟨0, 0, 0, 0⟩]))
      ⟨0, 1, 1, ⟨1, 1⟩, [], []⟩).1.isSome ∧
    (bakeLightmapGeometryBuffer true (fun _ => some (Texture.tex2D 1 1 [⟨0, 0, 0, 0⟩]))
      ⟨0, 1, 1, ⟨1, 1⟩, [], []⟩).2 = [] :=
  c10_readback_totality _ _ (fun _ _ => ⟨1, 1, [⟨0, 0, 0, 0⟩], rfl⟩)

/-! ## C3 machinery -/

/-- The geometry-stage acceptance test of the candidate loop: after
orientation, both endpoint positions and both endpoint normals match within
their epsilons. -/
def seamGeometryAccept (vertices : List ModelVertex) (edge candidate0 : Nat × Nat) : Prop :=
  let candidate := orientCandidate vertices edge candidate0
  ((vertexAt vertices edge.1).position_.sub (vertexAt vertices candidate.1).position_).lengthSq <
    positionEpsilonSquared ∧
  ((vertexAt vertices edge.2).position_.sub (vertexAt vertices candidate.2).position_).lengthSq <
    positionEpsilonSquared ∧
  ((vertexAt vertices edge.1).normal_.sub (vertexAt vertices candidate.1).normal_).lengthSq <
    normalEpsilonSquared ∧
  ((vertexAt vertices edge.2).normal_.sub (vertexAt vertices candidate.2).normal_).lengthSq <
    normalEpsilonSquared

instance (vertices : List ModelVertex) (edge candidate0 : Nat × Nat) :
    Decidable (seamGeometryAccept vertices edge candidate0) := by
  unfold seamGeometryAccept
  infer_instance

theorem checkSeamCandidate_self (vertices : List ModelVertex) (uvChannel : Nat)
    (edge candidate0 : Nat × Nat) (h : candidate0 = edge) :
    checkSeamCandidate vertices uvChannel edge candidate0 = none := by
  unfold checkSeamCandidate
  rw [if_pos h]

theorem checkSeamCandidate_reject (vertices : List ModelVertex) (uvChannel : Nat)
    (edge candidate0 : Nat × Nat) (h : ¬ seamGeometryAccept vertices edge candidate0) :
    checkSeamCandidate vertices uvChannel edge candidate0 = none := by
  unfold checkSeamCandidate
  by_cases he : candidate0 = edge
  · rw [if_pos he]
  · rw [if_neg he]
    unfold seamGeometryAccept at h
    dsimp only at h ⊢
    rw [if_neg h]

theorem checkSeamCandidate_accept (vertices : List ModelVertex) (uvChannel : Nat)
    (edge candidate0 : Nat × Nat) (c1 c2 : Nat)
    (hne : candidate0 ≠ edge)
    (horient : orientCandidate vertices edge candidate0 = (c1, c2))
    (hgeom : seamGeometryAccept vertices edge candidate0)
    (huv : ¬(((vertexUv vertices uvChannel edge.1).sub
          (vertexUv vertices uvChannel c1)).lengthSq < uvEpsilonSquared ∧
        ((vertexUv vertices uvChannel edge.2).sub
          (vertexUv vertices uvChannel c2)).lengthSq < uvEpsilonSquared))
    (hcol : ¬(((vec3OfVec2 ((vertexUv vertices uvChannel edge.2).sub
            (vertexUv vertices uvChannel edge.1)) 0).cross
          (vec3OfVec2 ((vertexUv vertices uvChannel c1).sub
            (vertexUv vertices uvChannel edge.1)) 0)).lengthSq < uvEpsilonSquared ∧
        ((vec3OfVec2 ((vertexUv vertices uvChannel edge.2).sub
            (vertexUv vertices uvChannel edge.1)) 0).cross
          (vec3OfVec2 ((vertexUv vertices uvChannel c2).sub
            (vertexUv vertices uvChannel edge.1)) 0)).lengthSq < uvEpsilonSquared)) :
    checkSeamCandidate vertices uvChannel edge candidate0 =
      some ⟨vertexUv vertices uvChannel edge.1, vertexUv vertices uvChannel edge.2,
        vertexUv vertices uvChannel c1, vertexUv vertices uvChannel c2⟩ := by
  unfold checkSeamCandidate
  rw [if_neg hne]
  unfold seamGeometryAccept at hgeom
  rw [horient] at hgeom
  dsimp only at hgeom ⊢
  rw [horient]
  dsimp only
  rw [if_pos hgeom, if_neg huv, if_neg hcol]

/-- Pointwise agreement of positions and normals between two vertex lists. -/
def samePosNormals (v1 v2 : List ModelVertex) : Prop :=
  ∀ i : Nat, (vertexAt v1 i).position_ = (vertexAt v2 i).position_ ∧
    (vertexAt v1 i).normal_ = (vertexAt v2 i).normal_

theorem flatMap_fun_congr {α β : Type} (l : List α) {f g : α → List β}
    (h : ∀ a, f a = g a) : l.flatMap f = l.flatMap g := by
  rw [funext h]

theorem edgeHashBucket_congr {v1 v2 : List ModelVertex} (h : samePosNormals v1 v2)
    (boxMin hashStep : Vector3) (edges : List (Nat × Nat)) (cell : IntVector3) :
    edgeHashBucket v1 boxMin hashStep edges cell =
      edgeHashBucket v2 boxMin hashStep edges cell := by
  unfold edgeHashBucket
  refine flatMap_fun_congr edges (fun edge => ?_)
  rw [(h edge.1).1, (h edge.2).1]

theorem edgeCandidates_congr {v1 v2 : List ModelVertex} (h : samePosNormals v1 v2)
    (boxMin hashStep : Vector3) (edges : List (Nat × Nat)) (edge : Nat × Nat) :
    edgeCandidates v1 boxMin hashStep edges edge =
      edgeCandidates v2 boxMin hashStep edges edge := by
  unfold edgeCandidates
  refine congrArg sortUnique (flatMap_fun_congr _ (fun index => ?_))
  dsimp only
  rw [(h index).1]
  exact flatMap_fun_congr _ (fun offset =>
    edgeHashBucket_congr h boxMin hashStep edges _)

theorem orientCandidate_congr {v1 v2 : List ModelVertex} (h : samePosNormals v1 v2)
    (edge candidate : Nat × Nat) :
    orientCandidate v1 edge candidate = orientCandidate v2 edge candidate := by
  unfold orientCandidate
  rw [(h candidate.1).1, (h edge.2).1]

theorem seamGeometryAccept_congr {v1 v2 : List ModelVertex} (h : samePosNormals v1 v2)
    (edge candidate0 : Nat × Nat) :
    seamGeometryAccept v1 edge candidate0 ↔ seamGeometryAccept v2 edge candidate0 := by
  unfold seamGeometryAccept
  dsimp only
  rw [orientCandidate_congr h, (h edge.1).1, (h edge.2).1, (h edge.1).2, (h edge.2).2,
    (h (orientCandidate v2 edge candidate0).1).1, (h (orientCandidate v2 edge candidate0).2).1,
    (h (orientCandidate v2 edge candidate0).1).2, (h (orientCandidate v2 edge candidate0).2).2]


/-- The two-triangle seam mesh of the spec's test property: triangles
`(0,1,2)` and `(3,4,5)` share the geometric edge between positions
`(0,0,0)` and `(1,0,0)` (vertices 3 and 4 duplicate the positions and
normals of vertices 0 and 1) while carrying their own UV coordinates. -/
def seamVertices (u0 u1 u2 u3 u4 u5 : Vector2) : List ModelVertex :=
  [⟨⟨0, 0, 0⟩, ⟨0, 0, 1⟩, [u0]⟩,
   ⟨⟨1, 0, 0⟩, ⟨0, 0, 1⟩, [u1]⟩,
   ⟨⟨0, 1, 0⟩, ⟨0, 0, 1⟩, [u2]⟩,
   ⟨⟨0, 0, 0⟩, ⟨0, 0, 1⟩, [u3]⟩,
   ⟨⟨1, 0, 0⟩, ⟨0, 0, 1⟩, [u4]⟩,
   ⟨⟨0, -1, 0⟩, ⟨0, 0, 1⟩, [u5]⟩]

/-- The two-triangle model built from `seamVertices`. -/
def seamPairMesh (u0 u1 u2 u3 u4 u5 : Vector2) : ModelViewData :=
  ⟨[⟨[⟨seamVertices u0 u1 u2 u3 u4 u5, [0, 1, 2, 3, 4, 5]⟩]⟩]⟩

/-- `seamVertices` with all UVs zeroed: the geometric skeleton. -/
def seamVerticesBase : List ModelVertex :=
  seamVertices ⟨0, 0⟩ ⟨0, 0⟩ ⟨0, 0⟩ ⟨0, 0⟩ ⟨0, 0⟩ ⟨0, 0⟩

/-- The positions of the two-triangle mesh. -/
def seamBasePositions : List Vector3 :=
  [⟨0, 0, 0⟩, ⟨1, 0, 0⟩, ⟨0, 1, 0⟩, ⟨0, 0, 0⟩, ⟨1, 0, 0⟩, ⟨0, -1, 0⟩]

theorem seamVertices_samePosNormals (u0 u1 u2 u3 u4 u5 : Vector2) :
    samePosNormals (seamVertices u0 u1 u2 u3 u4 u5) seamVerticesBase := by
  intro i
  match i with
  | 0 => exact ⟨rfl, rfl⟩
  | 1 => exact ⟨rfl, rfl⟩
  | 2 => exact ⟨rfl, rfl⟩
  | 3 => exact ⟨rfl, rfl⟩
  | 4 => exact ⟨rfl, rfl⟩
  | 5 => exact ⟨rfl, rfl⟩
  | n + 6 => exact ⟨rfl, rfl⟩

/-- C3 (amended): for the two-triangle mesh whose triangles share a
geometrically identical 3-D edge (same positions and normals) but carry
disjoint, non-collinear UV segments, `CollectModelSeams` returns exactly TWO
seams — the matching pair is reported once from each side — each oriented so
that `positions_[0]` and `otherPositions_[0]` are the UVs of vertices at the
same shared 3-D position (vertex 0 and vertex 3, both at `(0,0,0)`), and
likewise for index 1. -/
theorem c3_seam_pair_two_seams (u0 u1 u2 u3 u4 u5 : Vector2)
    (hUv01 : ¬((Vector2.sub u0 u3).lengthSq < uvEpsilonSquared ∧
      (Vector2.sub u1 u4).lengthSq < uvEpsilonSquared))
    (hUv10 : ¬((Vector2.sub u3 u0).lengthSq < uvEpsilonSquared ∧
      (Vector2.sub u4 u1).lengthSq < uvEpsilonSquared))
    (hNC01 : ¬(((vec3OfVec2 (Vector2.sub u1 u0) 0).cross
        (vec3OfVec2 (Vector2.sub u3 u0) 0)).lengthSq < uvEpsilonSquared ∧
      ((vec3OfVec2 (Vector2.sub u1 u0) 0).cross
        (vec3OfVec2 (Vector2.sub u4 u0) 0)).lengthSq < uvEpsilonSquared))
    (hNC10 : ¬(((vec3OfVec2 (Vector2.sub u4 u3) 0).cross
        (vec3OfVec2 (Vector2.sub u0 u3) 0)).lengthSq < uvEpsilonSquared ∧
      ((vec3OfVec2 (Vector2.sub u4 u3) 0).cross
        (vec3OfVec2 (Vector2.sub u1 u3) 0)).lengthSq < uvEpsilonSquared)) :
    collectModelSeams (seamPairMesh u0 u1 u2 u3 u4 u5) 0 =
      [⟨u0, u1, u3, u4⟩, ⟨u3, u4, u0, u1⟩] ∧
    (vertexAt (seamVertices u0 u1 u2 u3 u4 u5) 0).position_ =
      (vertexAt (seamVertices u0 u1 u2 u3 u4 u5) 3).position_ ∧
    (vertexAt (seamVertices u0 u1 u2 u3 u4 u5) 1).position_ =
      (vertexAt (seamVertices u0 u1 u2 u3 u4 u5) 4).position_ := by
  refine ⟨?_, rfl, rfl⟩
  have hsame := seamVertices_samePosNormals u0 u1 u2 u3 u4 u5
  have hstep1 : collectModelSeams (seamPairMesh u0 u1 u2 u3 u4 u5) 0 =
      (collectLodSeams (calculateBoundingBox seamBasePositions).min_ (modelHashStep (calculateBoundingBox seamBasePositions)) 0
        ⟨seamVertices u0 u1 u2 u3 u4 u5, [0, 1, 2, 3, 4, 5]⟩ ++ []) ++ [] := rfl
  rw [hstep1, List.append_nil, List.append_nil]
  have hstep2 : collectLodSeams (calculateBoundingBox seamBasePositions).min_ (modelHashStep (calculateBoundingBox seamBasePositions)) 0
      ⟨seamVertices u0 u1 u2 u3 u4 u5, [0, 1, 2, 3, 4, 5]⟩ =
      (geometryEdges ⟨seamVertices u0 u1 u2 u3 u4 u5, [0, 1, 2, 3, 4, 5]⟩).flatMap (fun edge =>
        (edgeCandidates (seamVertices u0 u1 u2 u3 u4 u5) (calculateBoundingBox seamBasePositions).min_ (modelHashStep (calculateBoundingBox seamBasePositions))
            (geometryEdges ⟨seamVertices u0 u1 u2 u3 u4 u5, [0, 1, 2, 3, 4, 5]⟩) edge).flatMap (fun candidate =>
          (checkSeamCandidate (seamVertices u0 u1 u2 u3 u4 u5) 0 edge candidate).toList)) := rfl
  rw [hstep2]
  have hedges0 : geometryEdges ⟨seamVertices u0 u1 u2 u3 u4 u5, [0, 1, 2, 3, 4, 5]⟩ =
      geometryEdges ⟨([] : List ModelVertex), [0, 1, 2, 3, 4, 5]⟩ := rfl
  have hedges : geometryEdges ⟨seamVertices u0 u1 u2 u3 u4 u5, [0, 1, 2, 3, 4, 5]⟩ = [(0, 1), (0, 2), (1, 2), (3, 4), (3, 5), (4, 5)] :=
    hedges0.trans (by decide)
  rw [hedges]
  simp only [List.flatMap_cons, List.flatMap_nil]
  rw [edgeCandidates_congr hsame (calculateBoundingBox seamBasePositions).min_ (modelHashStep (calculateBoundingBox seamBasePositions)) ([(0, 1), (0, 2), (1, 2), (3, 4), (3, 5), (4, 5)]) ((0, 1))]
  rw [show edgeCandidates seamVerticesBase (calculateBoundingBox seamBasePositions).min_ (modelHashStep (calculateBoundingBox seamBasePositions)) ([(0, 1), (0, 2), (1, 2), (3, 4), (3, 5), (4, 5)]) ((0, 1)) =
      [(0, 1), (0, 2), (1, 2), (3, 4), (3, 5), (4, 5)] from by decide]
  rw [edgeCandidates_congr hsame (calculateBoundingBox seamBasePositions).min_ (modelHashStep (calculateBoundingBox seamBasePositions)) ([(0, 1), (0, 2), (1, 2), (3, 4), (3, 5), (4, 5)]) ((0, 2))]
  rw [show edgeCandidates seamVerticesBase (calculateBoundingBox seamBasePositions).min_ (modelHashStep (calculateBoundingBox seamBasePositions)) ([(0, 1), (0, 2), (1, 2), (3, 4), (3, 5), (4, 5)]) ((0, 2)) =
      [(0, 1), (0, 2), (1, 2), (3, 4), (3, 5)] from by decide]
  rw [edgeCandidates_congr hsame (calculateBoundingBox seamBasePositions).min_ (modelHashStep (calculateBoundingBox seamBasePositions)) ([(0, 1), (0, 2), (1, 2), (3, 4), (3, 5), (4, 5)]) ((1, 2))]
  rw [show edgeCandidates seamVerticesBase (calculateBoundingBox seamBasePositions).min_ (modelHashStep (calculateBoundingBox seamBasePositions)) ([(0, 1), (0, 2), (1, 2), (3, 4), (3, 5), (4, 5)]) ((1, 2)) =
      [(0, 1), (0, 2), (1, 2), (3, 4), (4, 5)] from by decide]
  rw [edgeCandidates_congr hsame (calculateBoundingBox seamBasePositions).min_ (modelHashStep (calculateBoundingBox seamBasePositions)) ([(0, 1), (0, 2), (1, 2), (3, 4), (3, 5), (4, 5)]) ((3, 4))]
  rw [show edgeCandidates seamVerticesBase (calculateBoundingBox seamBasePositions).min_ (modelHashStep (calculateBoundingBox seamBasePositions)) ([(0, 1), (0, 2), (1, 2), (3, 4), (3, 5), (4, 5)]) ((3, 4)) =
      [(0, 1), (0, 2), (1, 2), (3, 4), (3, 5), (4, 5)] from by decide]
  rw [edgeCandidates_congr hsame (calculateBoundingBox seamBasePositions).min_ (modelHashStep (calculateBoundingBox seamBasePositions)) ([(0, 1), (0, 2), (1, 2), (3, 4), (3, 5), (4, 5)]) ((3, 5))]
  rw [show edgeCandidates seamVerticesBase (calculateBoundingBox seamBasePositions).min_ (modelHashStep (calculateBoundingBox seamBasePositions)) ([(0, 1), (0, 2), (1, 2), (3, 4), (3, 5), (4, 5)]) ((3, 5)) =
      [(0, 1), (0, 2), (3, 4), (3, 5), (4, 5)] from by decide]
  rw [edgeCandidates_congr hsame (calculateBoundingBox seamBasePositions).min_ (modelHashStep (calculateBoundingBox seamBasePositions)) ([(0, 1), (0, 2), (1, 2), (3, 4), (3, 5), (4, 5)]) ((4, 5))]
  rw [show edgeCandidates seamVerticesBase (calculateBoundingBox seamBasePositions).min_ (modelHashStep (calculateBoundingBox seamBasePositions)) ([(0, 1), (0, 2), (1, 2), (3, 4), (3, 5), (4, 5)]) ((4, 5)) =
      [(0, 1), (1, 2), (3, 4), (3, 5), (4, 5)] from by decide]
  simp only [List.flatMap_cons, List.flatMap_nil]
  rw [checkSeamCandidate_self (seamVertices u0 u1 u2 u3 u4 u5) 0 ((0, 1)) ((0, 1)) rfl]
  rw [checkSeamCandidate_reject (seamVertices u0 u1 u2 u3 u4 u5) 0 ((0, 1)) ((0, 2))
    (fun hacc => absurd ((seamGeometryAccept_congr hsame ((0, 1)) ((0, 2))).mp hacc) (by decide))]
  rw [checkSeamCandidate_reject (seamVertices u0 u1 u2 u3 u4 u5) 0 ((0, 1)) ((1, 2))
    (fun hacc => absurd ((seamGeometryAccept_congr hsame ((0, 1)) ((1, 2))).mp hacc) (by decide))]
  rw [checkSeamCandidate_accept (seamVertices u0 u1 u2 u3 u4 u5) 0 ((0, 1)) ((3, 4)) 3 4
    (by decide)
    (((orientCandidate_congr hsame ((0, 1)) ((3, 4)))).trans (by decide))
    ((seamGeometryAccept_congr hsame ((0, 1)) ((3, 4))).mpr (by decide))
    hUv01 hNC01]
  rw [checkSeamCandidate_reject (seamVertices u0 u1 u2 u3 u4 u5) 0 ((0, 1)) ((3, 5))
    (fun hacc => absurd ((seamGeometryAccept_congr hsame ((0, 1)) ((3, 5))).mp hacc) (by decide))]
  rw [checkSeamCandidate_reject (seamVertices u0 u1 u2 u3 u4 u5) 0 ((0, 1)) ((4, 5))
    (fun hacc => absurd ((seamGeometryAccept_congr hsame ((0, 1)) ((4, 5))).mp hacc) (by decide))]
  rw [checkSeamCandidate_reject (seamVertices u0 u1 u2 u3 u4 u5) 0 ((0, 2)) ((0, 1))
    (fun hacc => absurd ((seamGeometryAccept_congr hsame ((0, 2)) ((0, 1))).mp hacc) (by decide))]
  rw [checkSeamCandidate_self (seamVertices u0 u1 u2 u3 u4 u5) 0 ((0, 2)) ((0, 2)) rfl]
  rw [checkSeamCandidate_reject (seamVertices u0 u1 u2 u3 u4 u5) 0 ((0, 2)) ((1, 2))
    (fun hacc => absurd ((seamGeometryAccept_congr hsame ((0, 2)) ((1, 2))).mp hacc) (by decide))]
  rw [checkSeamCandidate_reject (seamVertices u0 u1 u2 u3 u4 u5) 0 ((0, 2)) ((3, 4))
    (fun hacc => absurd ((seamGeometryAccept_congr hsame ((0, 2)) ((3, 4))).mp hacc) (by decide))]
  rw [checkSeamCandidate_reject (seamVertices u0 u1 u2 u3 u4 u5) 0 ((0, 2)) ((3, 5))
    (fun hacc => absurd ((seamGeometryAccept_congr hsame ((0, 2)) ((3, 5))).mp hacc) (by decide))]
  rw [checkSeamCandidate_reject (seamVertices u0 u1 u2 u3 u4 u5) 0 ((1, 2)) ((0, 1))
    (fun hacc => absurd ((seamGeometryAccept_congr hsame ((1, 2)) ((0, 1))).mp hacc) (by decide))]
  rw [checkSeamCandidate_reject (seamVertices u0 u1 u2 u3 u4 u5) 0 ((1, 2)) ((0, 2))
    (fun hacc => absurd ((seamGeometryAccept_congr hsame ((1, 2)) ((0, 2))).mp hacc) (by decide))]
  rw [checkSeamCandidate_self (seamVertices u0 u1 u2 u3 u4 u5) 0 ((1, 2)) ((1, 2)) rfl]
  rw [checkSeamCandidate_reject (seamVertices u0 u1 u2 u3 u4 u5) 0 ((1, 2)) ((3, 4))
    (fun hacc => absurd ((seamGeometryAccept_congr hsame ((1, 2)) ((3, 4))).mp hacc) (by decide))]
  rw [checkSeamCandidate_reject (seamVertices u0 u1 u2 u3 u4 u5) 0 ((1, 2)) ((4, 5))
    (fun hacc => absurd ((seamGeometryAccept_congr hsame ((1, 2)) ((4, 5))).mp hacc) (by decide))]
  rw [checkSeamCandidate_accept (seamVertices u0 u1 u2 u3 u4 u5) 0 ((3, 4)) ((0, 1)) 0 1
    (by decide)
    (((orientCandidate_congr hsame ((3, 4)) ((0, 1)))).trans (by decide))
    ((seamGeometryAccept_congr hsame ((3, 4)) ((0, 1))).mpr (by decide))
    hUv10 hNC10]
  rw [checkSeamCandidate_reject (seamVertices u0 u1 u2 u3 u4 u5) 0 ((3, 4)) ((0, 2))
    (fun hacc => absurd ((seamGeometryAccept_congr hsame ((3, 4)) ((0, 2))).mp hacc) (by decide))]
  rw [checkSeamCandidate_reject (seamVertices u0 u1 u2 u3 u4 u5) 0 ((3, 4)) ((1, 2))
    (fun hacc => absurd ((seamGeometryAccept_congr hsame ((3, 4)) ((1, 2))).mp hacc) (by decide))]
  rw [checkSeamCandidate_self (seamVertices u0 u1 u2 u3 u4 u5) 0 ((3, 4)) ((3, 4)) rfl]
  rw [checkSeamCandidate_reject (seamVertices u0 u1 u2 u3 u4 u5) 0 ((3, 4)) ((3, 5))
    (fun hacc => absurd ((seamGeometryAccept_congr hsame ((3, 4)) ((3, 5))).mp hacc) (by decide))]
  rw [checkSeamCandidate_reject (seamVertices u0 u1 u2 u3 u4 u5) 0 ((3, 4)) ((4, 5))
    (fun hacc => absurd ((seamGeometryAccept_congr hsame ((3, 4)) ((4, 5))).mp hacc) (by decide))]
  rw [checkSeamCandidate_reject (seamVertices u0 u1 u2 u3 u4 u5) 0 ((3, 5)) ((0, 1))
    (fun hacc => absurd ((seamGeometryAccept_congr hsame ((3, 5)) ((0, 1))).mp hacc) (by decide))]
  rw [checkSeamCandidate_reject (seamVertices u0 u1 u2 u3 u4 u5) 0 ((3, 5)) ((0, 2))
    (fun hacc => absurd ((seamGeometryAccept_congr hsame ((3, 5)) ((0, 2))).mp hacc) (by decide))]
  rw [checkSeamCandidate_reject (seamVertices u0 u1 u2 u3 u4 u5) 0 ((3, 5)) ((3, 4))
    (fun hacc => absurd ((seamGeometryAccept_congr hsame ((3, 5)) ((3, 4))).mp hacc) (by decide))]
  rw [checkSeamCandidate_self (seamVertices u0 u1 u2 u3 u4 u5) 0 ((3, 5)) ((3, 5)) rfl]
  rw [checkSeamCandidate_reject (seamVertices u0 u1 u2 u3 u4 u5) 0 ((3, 5)) ((4, 5))
    (fun hacc => absurd ((seamGeometryAccept_congr hsame ((3, 5)) ((4, 5))).mp hacc) (by decide))]
  rw [checkSeamCandidate_reject (seamVertices u0 u1 u2 u3 u4 u5) 0 ((4, 5)) ((0, 1))
    (fun hacc => absurd ((seamGeometryAccept_congr hsame ((4, 5)) ((0, 1))).mp hacc) (by decide))]
  rw [checkSeamCandidate_reject (seamVertices u0 u1 u2 u3 u4 u5) 0 ((4, 5)) ((1, 2))
    (fun hacc => absurd ((seamGeometryAccept_congr hsame ((4, 5)) ((1, 2))).mp hacc) (by decide))]
  rw [checkSeamCandidate_reject (seamVertices u0 u1 u2 u3 u4 u5) 0 ((4, 5)) ((3, 4))
    (fun hacc => absurd ((seamGeometryAccept_congr hsame ((4, 5)) ((3, 4))).mp hacc) (by decide))]
  rw [checkSeamCandidate_reject (seamVertices u0 u1 u2 u3 u4 u5) 0 ((4, 5)) ((3, 5))
    (fun hacc => absurd ((seamGeometryAccept_congr hsame ((4, 5)) ((3, 5))).mp hacc) (by decide))]
  rw [checkSeamCandidate_self (seamVertices u0 u1 u2 u3 u4 u5) 0 ((4, 5)) ((4, 5)) rfl]
  simp only [Option.toList_some, Option.toList_none, List.nil_append, List.append_nil]
  rfl

/-- C3 counterexample: a mesh with exactly one pair of triangles sharing a
geometrically identical 3-D edge mapped to disjoint non-collinear UV
segments, on which `CollectModelSeams` returns two seams, not one: the
matching edge pair is detected from both directions and no deduplication is
performed. -/
theorem c3_exactly_one_seam_counterexample :
    (collectModelSeams (seamPairMesh ⟨0, 0⟩ ⟨1, 0⟩ ⟨0, 1⟩ ⟨5, 5⟩ ⟨6, 7⟩ ⟨9, 9⟩) 0).length = 2 ∧
    (collectModelSeams (seamPairMesh ⟨0, 0⟩ ⟨1, 0⟩ ⟨0, 1⟩ ⟨5, 5⟩ ⟨6, 7⟩ ⟨9, 9⟩) 0).length ≠ 1 := by
  decide

/-- Witness for C3 (amended) at concrete disjoint non-collinear UVs. -/
theorem c3_seam_pair_two_seams_witness :
    collectModelSeams (seamPairMesh ⟨0, 0⟩ ⟨1, 0⟩ ⟨0, 1⟩ ⟨5, 5⟩ ⟨6, 7⟩ ⟨9, 9⟩) 0 =
      [⟨⟨0, 0⟩, ⟨1, 0⟩, ⟨5, 5⟩, ⟨6, 7⟩⟩, ⟨⟨5, 5⟩, ⟨6, 7⟩, ⟨0, 0⟩, ⟨1, 0⟩⟩] ∧
    (vertexAt (seamVertices ⟨0, 0⟩ ⟨1, 0⟩ ⟨0, 1⟩ ⟨5, 5⟩ ⟨6, 7⟩ ⟨9, 9⟩) 0).position_ =
      (vertexAt (seamVertices ⟨0, 0⟩ ⟨1, 0⟩ ⟨0, 1⟩ ⟨5, 5⟩ ⟨6, 7⟩ ⟨9, 9⟩) 3).position_ ∧
    (vertexAt (seamVertices ⟨0, 0⟩ ⟨1, 0⟩ ⟨0, 1⟩ ⟨5, 5⟩ ⟨6, 7⟩ ⟨9, 9⟩) 1).position_ =
      (vertexAt (seamVertices ⟨0, 0⟩ ⟨1, 0⟩ ⟨0, 1⟩ ⟨5, 5⟩ ⟨6, 7⟩ ⟨9, 9⟩) 4).position_ :=
  c3_seam_pair_two_seams ⟨0, 0⟩ ⟨1, 0⟩ ⟨0, 1⟩ ⟨5, 5⟩ ⟨6, 7⟩ ⟨9, 9⟩
    (by decide) (by decide) (by decide) (by decide)

/-- Witness for C9 at a concrete loader, chart list and render oracles. -/
theorem c9_one_buffer_per_chart_witness :
    (fun _ : String => true) "Path.xml" = true ∧
    ((generateLightmapGeometryBakingScenes (fun _ => ⟨[]⟩) (fun _ => true)
        [⟨0, 1, 1, ⟨1, 1⟩, []⟩] ⟨"Mat.xml", 0, "Path.xml"⟩).1.length = 1 ∧
      (bakeLightmapGeometryBuffers (fun _ => true) (fun _ _ => none)
        (generateLightmapGeometryBakingScenes (fun _ => ⟨[]⟩) (fun _ => true)
          [⟨0, 1, 1, ⟨1, 1⟩, []⟩] ⟨"Mat.xml", 0, "Path.xml"⟩).1).length = 1 ∧
      (∀ j (hj : j < ([⟨0, 1, 1, ⟨1, 1⟩, []⟩] : List LightmapChart).length),
        (generateLightmapGeometryBakingScenes (fun _ => ⟨[]⟩) (fun _ => true)
          [⟨0, 1, 1, ⟨1, 1⟩, []⟩] ⟨"Mat.xml", 0, "Path.xml"⟩).1[j]? =
          some (generateLightmapGeometryBakingScene (fun _ => ⟨[]⟩)
            (([⟨0, 1, 1, ⟨1, 1⟩, []⟩] : List LightmapChart).get ⟨j, hj⟩)
            ⟨"Mat.xml", 0, "Path.xml"⟩)) ∧
      ∀ result, result ∈ bakeLightmapGeometryBuffers (fun _ => true) (fun _ _ => none)
          (generateLightmapGeometryBakingScenes (fun _ => ⟨[]⟩) (fun _ => true)
            [⟨0, 1, 1, ⟨1, 1⟩, []⟩] ⟨"Mat.xml", 0, "Path.xml"⟩).1 →
        ∀ buffer, result.1 = some buffer →
          buffer.geometryPositions_.length = buffer.width_ * buffer.height_ ∧
          buffer.smoothPositions_.length = buffer.width_ * buffer.height_ ∧
          buffer.faceNormals_.length = buffer.width_ * buffer.height_ ∧
          buffer.smoothNormals_.length = buffer.width_ * buffer.height_ ∧
          buffer.geometryIds_.length = buffer.width_ * buffer.height_) :=
  ⟨rfl, c9_one_buffer_per_chart (fun _ => ⟨[]⟩) (fun _ => true)
    [⟨0, 1, 1, ⟨1, 1⟩, []⟩] ⟨"Mat.xml", 0, "Path.xml"⟩ (fun _ => true) (fun _ _ => none) rfl⟩

/-- The acceptance condition of the claim, stated declaratively: after
orienting the candidate, both endpoint positions and normals match within
their squared epsilons, NOT both UV endpoint pairs match within the squared
UV epsilon, and the two UV segments are not collinear (not both cross
products of the edge's UV delta with the candidate-UV-minus-edge-origin
deltas have squared length below the squared UV epsilon). -/
def seamAcceptConditions (vertices : List ModelVertex) (uvChannel : Nat)
    (edge candidate0 : Nat × Nat) : Prop :=
  let candidate := orientCandidate vertices edge candidate0
  seamGeometryAccept vertices edge candidate0 ∧
  ¬(((vertexUv vertices uvChannel edge.1).sub
      (vertexUv vertices uvChannel candidate.1)).lengthSq < uvEpsilonSquared ∧
    ((vertexUv vertices uvChannel edge.2).sub
      (vertexUv vertices uvChannel candidate.2)).lengthSq < uvEpsilonSquared) ∧
  ¬(((vec3OfVec2 ((vertexUv vertices uvChannel edge.2).sub
        (vertexUv vertices uvChannel edge.1)) 0).cross
      (vec3OfVec2 ((vertexUv vertices uvChannel candidate.1).sub
        (vertexUv vertices uvChannel edge.1)) 0)).lengthSq < uvEpsilonSquared ∧
    ((vec3OfVec2 ((vertexUv vertices uvChannel edge.2).sub
        (vertexUv vertices uvChannel edge.1)) 0).cross
      (vec3OfVec2 ((vertexUv vertices uvChannel candidate.2).sub
        (vertexUv vertices uvChannel edge.1)) 0)).lengthSq < uvEpsilonSquared)

/-- C2: in the candidate loop of `CollectModelSeams`, for every candidate
distinct from the edge, a seam is emitted if and only if the claim's
conditions hold for the oriented candidate: both endpoint positions match
within the squared position epsilon, both endpoint normals match within the
squared normal epsilon, not both UV endpoint pairs match within the squared
UV epsilon, and the two UV segments are not collinear. -/
theorem c2_seam_acceptance (vertices : List ModelVertex) (uvChannel : Nat)
    (edge candidate0 : Nat × Nat) (hne : candidate0 ≠ edge) :
    (checkSeamCandidate vertices uvChannel edge candidate0).isSome ↔
      seamAcceptConditions vertices uvChannel edge candidate0 := by
  unfold checkSeamCandidate seamAcceptConditions seamGeometryAccept
  rw [if_neg hne]
  dsimp only
  split_ifs with hA hB hC
  · simp only [Option.isSome_none, Bool.false_eq_true, false_iff]
    exact fun h => h.2.1 hB
  · simp only [Option.isSome_none, Bool.false_eq_true, false_iff]
    exact fun h => h.2.2 hC
  · simp only [Option.isSome_some, true_iff]
    exact ⟨hA, hB, hC⟩
  · simp only [Option.isSome_none, Bool.false_eq_true, false_iff]
    exact fun h => hA h.1

/-- Witness for C2 on the concrete two-triangle mesh: the edge and its
matching candidate from the other triangle. -/
theorem c2_seam_acceptance_witness :
    ((3, 4) : Nat × Nat) ≠ (0, 1) ∧
    ((checkSeamCandidate (seamVertices ⟨0, 0⟩ ⟨1, 0⟩ ⟨0, 1⟩ ⟨5, 5⟩ ⟨6, 7⟩ ⟨9, 9⟩)
        0 (0, 1) (3, 4)).isSome ↔
      seamAcceptConditions (seamVertices ⟨0, 0⟩ ⟨1, 0⟩ ⟨0, 1⟩ ⟨5, 5⟩ ⟨6, 7⟩ ⟨9, 9⟩)
        0 (0, 1) (3, 4)) :=
  ⟨by decide, c2_seam_acceptance (seamVertices ⟨0, 0⟩ ⟨1, 0⟩ ⟨0, 1⟩ ⟨5, 5⟩ ⟨6, 7⟩ ⟨9, 9⟩)
    0 (0, 1) (3, 4) (by decide)⟩

/-! ## Characterization of the element-replication loop -/

theorem flatMap_mem_congr {α β : Type} {l : List α} {f g : α → List β}
    (h : ∀ a ∈ l, f a = g a) : l.flatMap f = l.flatMap g := by
  induction l with
  | nil => rfl
  | cons a rest ih =>
    rw [List.flatMap_cons, List.flatMap_cons, h a (List.mem_cons_self a rest),
      ih (fun x hx => h x (List.mem_cons.mpr (Or.inr hx)))]

theorem replicateChartElements_nodes (seamsOfModel : Nat → List LightmapSeam)
    (settings : LightmapGeometryBakingSettings) (chart : LightmapChart) :
    ∀ (elems : List LightmapChartElement) (geometryId : Nat),
    (replicateChartElements seamsOfModel settings chart elems geometryId).2 =
      (List.enumFrom geometryId
          (elems.filter (fun e => e.staticModel_.isSome))).flatMap (fun p =>
        (List.range numMultiTapSamples).map (fun tap =>
          mkTapNode settings chart p.2 (p.2.staticModel_.getD 0) p.1 tap)) := by
  intro elems
  induction elems with
  | nil => intro geometryId; rfl
  | cons element rest ih =>
    intro geometryId
    unfold replicateChartElements
    cases hsm : element.staticModel_ with
    | none =>
      dsimp only
      rw [ih geometryId, List.filter_cons_of_neg (by simp [hsm])]
    | some model =>
      dsimp only
      rw [ih (geometryId + 1), List.filter_cons_of_pos (by simp [hsm]),
        List.enumFrom_cons, List.flatMap_cons, hsm]
      rfl

theorem replicateChartElements_seams (seamsOfModel : Nat → List LightmapSeam)
    (settings : LightmapGeometryBakingSettings) (chart : LightmapChart) :
    ∀ (elems : List LightmapChartElement) (geometryId : Nat),
    (replicateChartElements seamsOfModel settings chart elems geometryId).1 =
      (elems.filter (fun e => e.staticModel_.isSome)).flatMap (fun e =>
        (seamsOfModel (e.staticModel_.getD 0)).map (fun seam =>
          seam.transformed e.region_.getScale e.region_.getOffset)) := by
  intro elems
  induction elems with
  | nil => intro geometryId; rfl
  | cons element rest ih =>
    intro geometryId
    unfold replicateChartElements
    cases hsm : element.staticModel_ with
    | none =>
      dsimp only
      rw [ih geometryId, List.filter_cons_of_neg (by simp [hsm])]
    | some model =>
      dsimp only
      rw [ih (geometryId + 1), List.filter_cons_of_pos (by simp [hsm]),
        List.flatMap_cons, hsm]
      rfl

theorem generateScene_sceneNodes (modelData : Nat → ModelViewData)
    (chart : LightmapChart) (settings : LightmapGeometryBakingSettings) :
    (generateLightmapGeometryBakingScene modelData chart settings).sceneNodes_ =
      (List.enumFrom 1
          (chart.elements_.filter (fun e => e.staticModel_.isSome))).flatMap (fun p =>
        (List.range numMultiTapSamples).map (fun tap =>
          mkTapNode settings chart p.2 (p.2.staticModel_.getD 0) p.1 tap)) := by
  unfold generateLightmapGeometryBakingScene
  dsimp only
  rw [replicateChartElements_nodes]

theorem mem_usedModels {chart : LightmapChart} {element : LightmapChartElement}
    {model : Nat} (he : element ∈ chart.elements_)
    (hm : element.staticModel_ = some model) : model ∈ usedModels chart :=
  List.mem_dedup.mpr (List.mem_filterMap.mpr ⟨element, he, hm⟩)

theorem generateScene_seams_cache (modelData : Nat → ModelViewData)
    (chart : LightmapChart) (settings : LightmapGeometryBakingSettings) :
    (generateLightmapGeometryBakingScene modelData chart settings).seams_ =
      (chart.elements_.filter (fun e => e.staticModel_.isSome)).flatMap (fun e =>
        (((modelSeamsCache modelData settings.uvChannel_ chart).lookup
            (e.staticModel_.getD 0)).getD []).map (fun seam =>
          seam.transformed e.region_.getScale e.region_.getOffset)) := by
  unfold generateLightmapGeometryBakingScene
  dsimp only
  rw [replicateChartElements_seams]

theorem generateScene_seams (modelData : Nat → ModelViewData)
    (chart : LightmapChart) (settings : LightmapGeometryBakingSettings) :
    (generateLightmapGeometryBakingScene modelData chart settings).seams_ =
      (chart.elements_.filter (fun e => e.staticModel_.isSome)).flatMap (fun e =>
        (collectModelSeams (modelData (e.staticModel_.getD 0))
            settings.uvChannel_).map (fun seam =>
          seam.transformed e.region_.getScale e.region_.getOffset)) := by
  rw [generateScene_seams_cache]
  refine flatMap_mem_congr (fun e he => ?_)
  rcases List.mem_filter.mp he with ⟨hmem, hsome⟩
  rcases Option.isSome_iff_exists.mp hsome with ⟨model, hm⟩
  rw [hm]
  simp only [Option.getD_some]
  have hused : model ∈ usedModels chart := mem_usedModels hmem hm
  unfold modelSeamsCache
  rw [lookup_map_self _ _ _ hused]
  rfl

theorem Frac.val_hadd (a b : Frac) : (a + b).val = a.val + b.val := Frac.val_add a b

theorem Frac.val_hmul (a b : Frac) : (a * b).val = a.val * b.val := Frac.val_mul a b

theorem Frac.val_hsub (a b : Frac) : (a - b).val = a.val - b.val := Frac.val_sub a b

theorem Frac.val_hdiv_pos (a b : Frac) (h : 0 < b.num) :
    (a / b).val = a.val / b.val := Frac.val_div_pos a b h

theorem fr_one_val (n : Int) : (fr n 1).val = (n : ℚ) := by
  unfold fr Frac.val
  rw [dif_pos Nat.one_pos]
  simp

theorem tapDepth_val (tap : Nat) : (tapDepth tap).val = 1 - (tap : ℚ) / 24 := by
  unfold tapDepth
  rw [show ((numMultiTapSamples : Int) - 1) = 24 from rfl, Frac.val_hsub, Frac.val_ofNat,
    Frac.val_hdiv_pos (fr tap 1) (fr 24 1) (by decide), fr_one_val, fr_one_val]
  push_cast
  ring

/-- C7: every chart element with a mesh yields exactly 25 scene-node
instances (one per tap) at the element's world transform, each with its own
material clone whose parameters are the element's UV scale-offset plus the
tap's texel offset, a synthetic depth falling linearly from 1 at tap 0 to 0
at tap 24, and the element's 1-based geometry id. -/
theorem c7_multi_tap_instances (modelData : Nat → ModelViewData)
    (chart : LightmapChart) (settings : LightmapGeometryBakingSettings) :
    (generateLightmapGeometryBakingScene modelData chart settings).sceneNodes_ =
      (List.enumFrom 1
          (chart.elements_.filter (fun e => e.staticModel_.isSome))).flatMap (fun p =>
        (List.range numMultiTapSamples).map (fun tap =>
          { position_ := p.2.node_.position_
            rotation_ := p.2.node_.rotation_
            scale_ := p.2.node_.scale_
            model_ := p.2.staticModel_.getD 0
            material_ :=
              { baseName_ := settings.materialName_
                lmOffset_ := p.2.region_.getScaleOffset.add (tapOffset4 chart tap)
                lightmapLayer_ := tapDepth tap
                lightmapGeometry_ := fr p.1 1 } })) ∧
    numMultiTapSamples = 25 ∧
    (tapDepth 0).val = 1 ∧
    (tapDepth (numMultiTapSamples - 1)).val = 0 ∧
    ∀ tap : Nat, (tapDepth tap).val = 1 - (tap : ℚ) / 24 := by
  refine ⟨generateScene_sceneNodes modelData chart settings, rfl, ?_, ?_, tapDepth_val⟩
  · rw [tapDepth_val]
    norm_num
  · rw [tapDepth_val]
    norm_num [numMultiTapSamples]

/-- C8: the transformed seam satisfies
`Transformed(s,o).positions_[i] = positions_[i]*s + o` componentwise at the
rational level (both for `positions_` and `otherPositions_`), and the
produced scene's seam list is the concatenation, in chart-element order, of
each mesh-carrying element's model seams transformed by that element's
region scale and offset. -/
theorem c8_seam_transform (modelData : Nat → ModelViewData)
    (chart : LightmapChart) (settings : LightmapGeometryBakingSettings)
    (s o : Vector2) (seam : LightmapSeam) :
    ((seam.transformed s o).positions0_.x_.val =
        seam.positions0_.x_.val * s.x_.val + o.x_.val ∧
      (seam.transformed s o).positions0_.y_.val =
        seam.positions0_.y_.val * s.y_.val + o.y_.val) ∧
    ((seam.transformed s o).positions1_.x_.val =
        seam.positions1_.x_.val * s.x_.val + o.x_.val ∧
      (seam.transformed s o).positions1_.y_.val =
        seam.positions1_.y_.val * s.y_.val + o.y_.val) ∧
    ((seam.transformed s o).otherPositions0_.x_.val =
        seam.otherPositions0_.x_.val * s.x_.val + o.x_.val ∧
      (seam.transformed s o).otherPositions0_.y_.val =
        seam.otherPositions0_.y_.val * s.y_.val + o.y_.val) ∧
    ((seam.transformed s o).otherPositions1_.x_.val =
        seam.otherPositions1_.x_.val * s.x_.val + o.x_.val ∧
      (seam.transformed s o).otherPositions1_.y_.val =
        seam.otherPositions1_.y_.val * s.y_.val + o.y_.val) ∧
    (generateLightmapGeometryBakingScene modelData chart settings).seams_ =
      (chart.elements_.filter (fun e => e.staticModel_.isSome)).flatMap (fun e =>
        (collectModelSeams (modelData (e.staticModel_.getD 0))
            settings.uvChannel_).map (fun seam0 =>
          seam0.transformed e.region_.getScale e.region_.getOffset)) := by
  have key : ∀ p : Vector2,
      ((p.mulV s).add o).x_.val = p.x_.val * s.x_.val + o.x_.val ∧
      ((p.mulV s).add o).y_.val = p.y_.val * s.y_.val + o.y_.val := by
    intro p
    constructor <;> simp [Vector2.mulV, Vector2.add, Frac.val_hadd, Frac.val_hmul]
  exact ⟨key seam.positions0_, key seam.positions1_, key seam.otherPositions0_,
    key seam.otherPositions1_, generateScene_seams modelData chart settings⟩

/-! ## Seam-detection invocation counting -/

/-- The number of `CollectModelSeams` executions triggered by one call of
`GenerateLightmapGeometryBakingScene`: one per entry of that call's seam
cache (the source spawns one `std::async` task per member of `usedModels`,
each invoking `CollectModelSeams` once). -/
def sceneSeamDetectionRuns (modelData : Nat → ModelViewData) (uvChannel : Nat)
    (chart : LightmapChart) : Nat :=
  (modelSeamsCache modelData uvChannel chart).length

/-- The number of `CollectModelSeams` executions across one batch call of
`GenerateLightmapGeometryBakingScenes`: the sum over its per-chart scene
generations, each of which builds its own local cache. -/
def batchSeamDetectionRuns (modelData : Nat → ModelViewData) (uvChannel : Nat)
    (charts : List LightmapChart) : Nat :=
  (charts.map (sceneSeamDetectionRuns modelData uvChannel)).sum

/-- C4 counterexample: two charts in one batch referencing the same mesh.
The seam cache is local to each chart's scene generation, so the batch runs
seam detection twice for one distinct mesh — not once per distinct mesh
referenced by any chart, as the claim states. -/
theorem c4_once_per_batch_counterexample :
    batchSeamDetectionRuns (fun _ => ⟨[]⟩) 0
      [⟨0, 4, 4, ⟨4, 4⟩, [⟨⟨⟨0, 0, 0⟩, ⟨0, 0, 0, 1⟩, ⟨1, 1, 1⟩⟩, some 0, ⟨⟨1, 1⟩, ⟨0, 0⟩⟩⟩]⟩,
       ⟨1, 4, 4, ⟨4, 4⟩, [⟨⟨⟨0, 0, 0⟩, ⟨0, 0, 0, 1⟩, ⟨1, 1, 1⟩⟩, some 0, ⟨⟨1, 1⟩, ⟨0, 0⟩⟩⟩]⟩] = 2 ∧
    (([⟨0, 4, 4, ⟨4, 4⟩, [⟨⟨⟨0, 0, 0⟩, ⟨0, 0, 0, 1⟩, ⟨1, 1, 1⟩⟩, some 0, ⟨⟨1, 1⟩, ⟨0, 0⟩⟩⟩]⟩,
        ⟨1, 4, 4, ⟨4, 4⟩, [⟨⟨⟨0, 0, 0⟩, ⟨0, 0, 0, 1⟩, ⟨1, 1, 1⟩⟩, some 0, ⟨⟨1, 1⟩, ⟨0, 0⟩⟩⟩]⟩] :
       List LightmapChart).flatMap (fun c =>
        c.elements_.filterMap (fun e => e.staticModel_))).dedup.length = 1 ∧
    (2 : Nat) ≠ 1 := by
  decide

/-- C4 (amended): within each single chart's scene generation, seam
detection runs exactly once per distinct mesh referenced by that chart
(cache keys are exactly the deduplicated referenced models), the cache is
keyed by mesh identity, and every element of that chart resolves its seams
from the cache entry of its mesh. -/
theorem c4_seam_cache_per_scene (modelData : Nat → ModelViewData)
    (chart : LightmapChart) (settings : LightmapGeometryBakingSettings) :
    ((modelSeamsCache modelData settings.uvChannel_ chart).map Prod.fst =
      usedModels chart) ∧
    (usedModels chart).Nodup ∧
    sceneSeamDetectionRuns modelData settings.uvChannel_ chart =
      (usedModels chart).length ∧
    (∀ model ∈ usedModels chart,
      (modelSeamsCache modelData settings.uvChannel_ chart).lookup model =
        some (collectModelSeams (modelData model) settings.uvChannel_)) ∧
    (∀ element ∈ chart.elements_, ∀ model, element.staticModel_ = some model →
      model ∈ usedModels chart) ∧
    (generateLightmapGeometryBakingScene modelData chart settings).seams_ =
      (chart.elements_.filter (fun e => e.staticModel_.isSome)).flatMap (fun e =>
        (((modelSeamsCache modelData settings.uvChannel_ chart).lookup
            (e.staticModel_.getD 0)).getD []).map (fun seam =>
          seam.transformed e.region_.getScale e.region_.getOffset)) := by
  refine ⟨?_, List.nodup_dedup _, ?_, ?_, ?_, generateScene_seams_cache modelData chart settings⟩
  · unfold modelSeamsCache
    rw [List.map_map]
    exact List.map_id _
  · unfold sceneSeamDetectionRuns modelSeamsCache
    exact List.length_map _ _
  · intro model hm
    unfold modelSeamsCache
    exact lookup_map_self _ _ _ hm
  · intro element he model hm
    exact mem_usedModels he hm

/-! ## Geometry-id bookkeeping (C1) -/

theorem fr_nat_truncUint (n : Nat) : (fr (n : Int) 1).truncUint = n := by
  unfold fr Frac.truncUint Frac.floorInt
  rw [dif_pos Nat.one_pos]
  show ((n : Int).fdiv 1).toNat = n
  rw [Int.fdiv_one]
  exact Int.toNat_natCast n

theorem enumFrom_flatMap_fst {α β : Type} (f : Nat → List β) :
    ∀ (l : List α) (n : Nat),
    (List.enumFrom n l).flatMap (fun p => f p.1) =
      (List.range l.length).flatMap (fun k => f (n + k)) := by
  intro l
  induction l with
  | nil => intro n; rfl
  | cons a rest ih =>
    intro n
    rw [List.enumFrom_cons, List.flatMap_cons, ih (n + 1), List.length_cons,
      List.range_succ_eq_map, List.flatMap_cons, List.flatMap_map]
    congr 1
    exact flatMap_mem_congr (fun k _ => congrArg f (by omega))

theorem readTexture_full (w h : Nat) (data : List Vector4)
    (hlen : data.length = w * h) :
    readTextureRGBA32Float (some (Texture.tex2D w h data)) = some data := by
  show some ((List.range (w * h)).map (fun i => data.getD i ⟨0, 0, 0, 0⟩)) = some data
  congr 1
  apply List.ext_getElem?
  intro n
  rw [List.getElem?_map]
  rcases Nat.lt_or_ge n (w * h) with hn | hn
  · have hn' : n < data.length := by omega
    rw [List.getElem?_range hn, List.getElem?_eq_getElem hn']
    show some (data.getD n ⟨0, 0, 0, 0⟩) = some (data.get ⟨n, hn'⟩)
    rw [List.getD_eq_getElem?_getD, List.getElem?_eq_getElem hn']
    rfl
  · have h1 : (List.range (w * h))[n]? = none :=
      List.getElem?_eq_none (by rw [List.length_range]; exact hn)
    have h2 : data[n]? = none := List.getElem?_eq_none (by omega)
    rw [h1, h2]
    rfl

theorem generateScene_geometryIds (modelData : Nat → ModelViewData)
    (chart : LightmapChart) (settings : LightmapGeometryBakingSettings) :
    ((generateLightmapGeometryBakingScene modelData chart settings).sceneNodes_).map
        (fun node => node.material_.lightmapGeometry_) =
      (List.range
          (chart.elements_.filter (fun e => e.staticModel_.isSome)).length).flatMap
        (fun k => List.replicate numMultiTapSamples (fr (k + 1) 1)) := by
  rw [generateScene_sceneNodes, List.map_flatMap]
  have h1 : ∀ p : Nat × LightmapChartElement,
      ((List.range numMultiTapSamples).map (fun tap =>
        mkTapNode settings chart p.2 (p.2.staticModel_.getD 0) p.1 tap)).map
          (fun node => node.material_.lightmapGeometry_) =
        List.replicate numMultiTapSamples (fr p.1 1) := by
    intro p
    rw [List.map_map]
    rw [show ((fun node : BakingSceneNode => node.material_.lightmapGeometry_) ∘
        (fun tap => mkTapNode settings chart p.2 (p.2.staticModel_.getD 0) p.1 tap)) =
      (fun _ => fr p.1 1) from rfl]
    rw [List.map_const', List.length_range]
  rw [flatMap_mem_congr (fun p _ => h1 p),
    enumFrom_flatMap_fst (fun i => List.replicate numMultiTapSamples (fr i 1))]
  exact flatMap_mem_congr (fun k _ =>
    congrArg (fun z : Int => List.replicate numMultiTapSamples (fr z 1))
      (by push_cast; ring))

/-- C1: in any scene produced by `GenerateLightmapGeometryBakingScene`, the
geometry ids carried by the replicated instances are exactly `1..N` in
chart-element order (25 per element, elements without a model skipped and
consuming no id); the decoder truncates the `W` component of the
`"position"` output to an unsigned integer; hence in a buffer decoded from a
rendering whose `W` values are either `0` or an instance's geometry id,
every decoded id is `0` or identifies exactly one chart element; and the
buffer's geometry ids are decoded from the `"position"` output. -/
theorem c1_geometry_id_invariant (modelData : Nat → ModelViewData)
    (chart : LightmapChart) (settings : LightmapGeometryBakingSettings)
    (positionData : List Vector4)
    (hrender : ∀ v ∈ positionData, v.w_ = 0 ∨
      ∃ node ∈ (generateLightmapGeometryBakingScene modelData chart settings).sceneNodes_,
        v.w_ = node.material_.lightmapGeometry_) :
    ((generateLightmapGeometryBakingScene modelData chart settings).sceneNodes_).map
        (fun node => node.material_.lightmapGeometry_) =
      (List.range
          (chart.elements_.filter (fun e => e.staticModel_.isSome)).length).flatMap
        (fun k => List.replicate numMultiTapSamples (fr (k + 1) 1)) ∧
    (∀ v : Vector4, extractUintFromVector4 v = v.w_.truncUint) ∧
    (∀ v ∈ positionData, extractUintFromVector4 v = 0 ∨
      ∃! k, k < (chart.elements_.filter (fun e => e.staticModel_.isSome)).length ∧
        extractUintFromVector4 v = k + 1) ∧
    ∀ (outputs : String → Option Texture) (buffer : LightmapChartGeometryBuffer),
      outputs "position" = some (Texture.tex2D chart.width_ chart.height_ positionData) →
      positionData.length = chart.width_ * chart.height_ →
      (bakeLightmapGeometryBuffer true outputs
          (generateLightmapGeometryBakingScene modelData chart settings)).1 = some buffer →
      buffer.geometryIds_ = positionData.map extractUintFromVector4 := by
  have hids := generateScene_geometryIds modelData chart settings
  refine ⟨hids, fun v => rfl, ?_, ?_⟩
  · intro v hv
    rcases hrender v hv with h0 | ⟨node, hnode, hw⟩
    · left
      unfold extractUintFromVector4
      rw [h0]
      exact Frac.truncUint_ofNat 0
    · right
      have hmem : node.material_.lightmapGeometry_ ∈
          ((generateLightmapGeometryBakingScene modelData chart settings).sceneNodes_).map
            (fun n => n.material_.lightmapGeometry_) :=
        List.mem_map_of_mem _ hnode
      rw [hids] at hmem
      rcases List.mem_flatMap.mp hmem with ⟨k, hk, hrep⟩
      have hkN := List.mem_range.mp hk
      have heq := (List.mem_replicate.mp hrep).2
      have hval : extractUintFromVector4 v = k + 1 := by
        unfold extractUintFromVector4
        rw [hw, heq, show ((k : Int) + 1) = (((k + 1 : Nat) : Int)) from by push_cast; ring]
        exact fr_nat_truncUint (k + 1)
      exact ⟨k, ⟨hkN, hval⟩, fun k' hk' => by omega⟩
  · intro outputs buffer hpos hlen hbake
    unfold bakeLightmapGeometryBuffer at hbake
    rw [if_pos rfl, hpos, readTexture_full chart.width_ chart.height_ positionData hlen]
      at hbake
    rcases h2 : readTextureRGBA32Float (outputs "smoothposition") with _ | smoothPositionData <;>
      rcases h3 : readTextureRGBA32Float (outputs "facenormal") with _ | faceNormalData <;>
      rcases h4 : readTextureRGBA32Float (outputs "smoothnormal") with _ | smoothNormalData <;>
      rw [h2, h3, h4] at hbake <;> dsimp only at hbake
    all_goals try exact Option.noConfusion hbake
    rw [← Option.some.inj hbake]
    show transformInto positionData extractUintFromVector4
      (mkGeometryBuffer chart.index_ chart.width_ chart.height_).geometryIds_ =
        positionData.map extractUintFromVector4
    apply transformInto_of_length_eq
    rw [hlen]
    show chart.width_ * chart.height_ =
      (List.replicate (chart.width_ * chart.height_) 0).length
    rw [List.length_replicate]

/-- Witness for C1 at a concrete chart (one element without a model, one
with) and a concrete position output whose `W` values are `1` and `0`. -/
theorem c1_geometry_id_invariant_witness :
    ((generateLightmapGeometryBakingScene (fun _ => ⟨[]⟩) ⟨0, 2, 2, ⟨2, 2⟩, [⟨⟨⟨0, 0, 0⟩, ⟨0, 0, 0, 1⟩, ⟨1, 1, 1⟩⟩, none, ⟨⟨1, 1⟩, ⟨0, 0⟩⟩⟩, ⟨⟨⟨0, 0, 0⟩, ⟨0, 0, 0, 1⟩, ⟨1, 1, 1⟩⟩, some 0, ⟨⟨1, 1⟩, ⟨0, 0⟩⟩⟩]⟩ ⟨"Mat.xml", 0, "Path.xml"⟩).sceneNodes_).map
        (fun node => node.material_.lightmapGeometry_) =
      (List.range
          ((⟨0, 2, 2, ⟨2, 2⟩, [⟨⟨⟨0, 0, 0⟩, ⟨0, 0, 0, 1⟩, ⟨1, 1, 1⟩⟩, none, ⟨⟨1, 1⟩, ⟨0, 0⟩⟩⟩, ⟨⟨⟨0, 0, 0⟩, ⟨0, 0, 0, 1⟩, ⟨1, 1, 1⟩⟩, some 0, ⟨⟨1, 1⟩, ⟨0, 0⟩⟩⟩]⟩ : LightmapChart).elements_.filter
            (fun e => e.staticModel_.isSome)).length).flatMap
        (fun k => List.replicate numMultiTapSamples (fr (k + 1) 1)) ∧
    (∀ v : Vector4, extractUintFromVector4 v = v.w_.truncUint) ∧
    (∀ v ∈ ([⟨0, 0, 0, fr 1 1⟩, ⟨0, 0, 0, 0⟩] : List Vector4), extractUintFromVector4 v = 0 ∨
      ∃! k, k < ((⟨0, 2, 2, ⟨2, 2⟩, [⟨⟨⟨0, 0, 0⟩, ⟨0, 0, 0, 1⟩, ⟨1, 1, 1⟩⟩, none, ⟨⟨1, 1⟩, ⟨0, 0⟩⟩⟩, ⟨⟨⟨0, 0, 0⟩, ⟨0, 0, 0, 1⟩, ⟨1, 1, 1⟩⟩, some 0, ⟨⟨1, 1⟩, ⟨0, 0⟩⟩⟩]⟩ : LightmapChart).elements_.filter
          (fun e => e.staticModel_.isSome)).length ∧
        extractUintFromVector4 v = k + 1) ∧
    ∀ (outputs : String → Option Texture) (buffer : LightmapChartGeometryBuffer),
      outputs "position" = some (Texture.tex2D (⟨0, 2, 2, ⟨2, 2⟩, [⟨⟨⟨0, 0, 0⟩, ⟨0, 0, 0, 1⟩, ⟨1, 1, 1⟩⟩, none, ⟨⟨1, 1⟩, ⟨0, 0⟩⟩⟩, ⟨⟨⟨0, 0, 0⟩, ⟨0, 0, 0, 1⟩, ⟨1, 1, 1⟩⟩, some 0, ⟨⟨1, 1⟩, ⟨0, 0⟩⟩⟩]⟩ : LightmapChart).width_
        (⟨0, 2, 2, ⟨2, 2⟩, [⟨⟨⟨0, 0, 0⟩, ⟨0, 0, 0, 1⟩, ⟨1, 1, 1⟩⟩, none, ⟨⟨1, 1⟩, ⟨0, 0⟩⟩⟩, ⟨⟨⟨0, 0, 0⟩, ⟨0, 0, 0, 1⟩, ⟨1, 1, 1⟩⟩, some 0, ⟨⟨1, 1⟩, ⟨0, 0⟩⟩⟩]⟩ : LightmapChart).height_ [⟨0, 0, 0, fr 1 1⟩, ⟨0, 0, 0, 0⟩]) →
      ([⟨0, 0, 0, fr 1 1⟩, ⟨0, 0, 0, 0⟩] : List Vector4).length =
        (⟨0, 2, 2, ⟨2, 2⟩, [⟨⟨⟨0, 0, 0⟩, ⟨0, 0, 0, 1⟩, ⟨1, 1, 1⟩⟩, none, ⟨⟨1, 1⟩, ⟨0, 0⟩⟩⟩, ⟨⟨⟨0, 0, 0⟩, ⟨0, 0, 0, 1⟩, ⟨1, 1, 1⟩⟩, some 0, ⟨⟨1, 1⟩, ⟨0, 0⟩⟩⟩]⟩ : LightmapChart).width_ * (⟨0, 2, 2, ⟨2, 2⟩, [⟨⟨⟨0, 0, 0⟩, ⟨0, 0, 0, 1⟩, ⟨1, 1, 1⟩⟩, none, ⟨⟨1, 1⟩, ⟨0, 0⟩⟩⟩, ⟨⟨⟨0, 0, 0⟩, ⟨0, 0, 0, 1⟩, ⟨1, 1, 1⟩⟩, some 0, ⟨⟨1, 1⟩, ⟨0, 0⟩⟩⟩]⟩ : LightmapChart).height_ →
      (bakeLightmapGeometryBuffer true outputs (generateLightmapGeometryBakingScene (fun _ => ⟨[]⟩) ⟨0, 2, 2, ⟨2, 2⟩, [⟨⟨⟨0, 0, 0⟩, ⟨0, 0, 0, 1⟩, ⟨1, 1, 1⟩⟩, none, ⟨⟨1, 1⟩, ⟨0, 0⟩⟩⟩, ⟨⟨⟨0, 0, 0⟩, ⟨0, 0, 0, 1⟩, ⟨1, 1, 1⟩⟩, some 0, ⟨⟨1, 1⟩, ⟨0, 0⟩⟩⟩]⟩ ⟨"Mat.xml", 0, "Path.xml"⟩)).1 = some buffer →
      buffer.geometryIds_ = ([⟨0, 0, 0, fr 1 1⟩, ⟨0, 0, 0, 0⟩] : List Vector4).map extractUintFromVector4 :=
  c1_geometry_id_invariant (fun _ => ⟨[]⟩) ⟨0, 2, 2, ⟨2, 2⟩, [⟨⟨⟨0, 0, 0⟩, ⟨0, 0, 0, 1⟩, ⟨1, 1, 1⟩⟩, none, ⟨⟨1, 1⟩, ⟨0, 0⟩⟩⟩, ⟨⟨⟨0, 0, 0⟩, ⟨0, 0, 0, 1⟩, ⟨1, 1, 1⟩⟩, some 0, ⟨⟨1, 1⟩, ⟨0, 0⟩⟩⟩]⟩ ⟨"Mat.xml", 0, "Path.xml"⟩ [⟨0, 0, 0, fr 1 1⟩, ⟨0, 0, 0, 0⟩] (by decide)

end Urho3D
